import Mathlib

/-!
Verification development for the tif-downloader tile pipeline.

This file gives a shallow embedding in Lean 4 of the core of the
tif-downloader repository — the Web Mercator tile mathematics
(`src/app/core/tile.py`), the per-tile retry loop and batch bookkeeping of
the downloader (`src/app/core/downloader.py`), the mosaic assembler
(`src/app/core/merger.py`), the exporter (`src/app/core/exporter.py`) and
the validation/crop logic of the download endpoint
(`src/app/api/download.py`) — and proves properties of that embedding.

Modelling conventions: Python floats are modelled as real numbers (the
ideal real-arithmetic semantics of the formulas in the source); Python
`int()` truncation toward zero is `pyInt`; Python dictionaries of tiles
are association lists keyed by `(x, y)`; the nondeterministic arrival
order of `asyncio.as_completed` is modelled by quantifying over an
arbitrary list of per-tile results; network outcomes and image codecs are
abstract parameters.
-/

namespace TifDownloader

/-! ### Configuration, from `src/app/config.py` -/

/-- Tile edge length in pixels (`TILE_SIZE = 256`). -/
def TILE_SIZE : ℕ := 256

/-- The keys of the `TILE_SOURCES` configuration dictionary. -/
def tileSourceKeys : List String :=
  ["google_satellite", "google_map", "google_hybrid", "osm",
   "arcgis_satellite", "carto_light", "carto_dark",
   "tianditu_satellite", "tianditu_vector"]

/-- `DOWNLOAD_SETTINGS["retry_times"]`. -/
def defaultRetryTimes : ℕ := 3

/-- `DOWNLOAD_SETTINGS["max_concurrent"]`. -/
def defaultMaxConcurrent : ℕ := 10

/-! ### Images

A decoded bitmap is modelled by its pixel dimensions and an RGB pixel
function (PIL images in RGB mode). -/

/-- An RGB color triple. -/
def Color : Type := ℕ × ℕ × ℕ

instance : DecidableEq Color := by unfold Color; infer_instance

/-- The white fill color `(255, 255, 255)`. -/
def whiteRGB : Color := (255, 255, 255)

/-- A decoded bitmap: pixel dimensions plus an RGB pixel function. -/
structure Img where
  width : ℕ
  height : ℕ
  px : ℕ → ℕ → Color

/-- `create_blank_tile` from `src/app/core/downloader.py`: a white
`TILE_SIZE × TILE_SIZE` RGB tile. -/
def create_blank_tile : Img :=
  ⟨TILE_SIZE, TILE_SIZE, fun _ _ => whiteRGB⟩

/-! ### Downloader, from `src/app/core/downloader.py`

`TileDownloader._download_tile` performs a retry loop
`for attempt in range(self.retry_times + 1)`: a request that returns
HTTP 200 (and decodes) succeeds; a non-200 status, a timeout, an
`aiohttp.ClientError` or any other exception records an error and, when
`attempt < retry_times`, sleeps `1 * (attempt + 1)` seconds before the
next attempt.  The network is modelled by a function from attempt index
to the outcome of the request issued on that attempt. -/

/-- Outcome of a single HTTP attempt for one tile. `resp s` is a response
with HTTP status `s` (a 200 response whose body decodes as an image is the
success case); decode failures land in `otherError`. -/
inductive Fetch where
  | resp (status : ℕ)
  | timeout
  | clientError (msg : String)
  | otherError (msg : String)
deriving DecidableEq

/-- The observable trace of `_download_tile` on one tile: how many
attempts were issued, whether the tile succeeded, and the list of backoff
sleeps (in seconds) performed between consecutive attempts. -/
structure DownloadRun where
  attemptsMade : ℕ
  success : Bool
  sleeps : List ℕ
deriving DecidableEq

/-- `self.retry_times = retry_times or DOWNLOAD_SETTINGS["retry_times"]`
in `TileDownloader.__init__`: a missing (`None`) or zero argument falls
back to the configured default (Python `or` treats `0` as falsy). -/
def resolveRetryTimes : Option ℕ → ℕ
  | none => defaultRetryTimes
  | some k => if k = 0 then defaultRetryTimes else k

/-- The body of the retry loop of `_download_tile`, unrolled over the
remaining loop iterations (`fuel`), with `attempt` the current value of
the loop counter. -/
def attemptLoop (outcome : ℕ → Fetch) (retryTimes : ℕ) :
    ℕ → ℕ → DownloadRun
  | 0, _ => ⟨0, false, []⟩
  | fuel + 1, attempt =>
    if outcome attempt = Fetch.resp 200 then ⟨1, true, []⟩
    else if attempt < retryTimes then
      let rest := attemptLoop outcome retryTimes fuel (attempt + 1)
      ⟨rest.attemptsMade + 1, rest.success, 1 * (attempt + 1) :: rest.sleeps⟩
    else ⟨1, false, []⟩

/-- `TileDownloader._download_tile`: run the retry loop
`for attempt in range(retry_times + 1)` from attempt 0. -/
def download_tile (outcome : ℕ → Fetch) (retryTimes : ℕ) : DownloadRun :=
  attemptLoop outcome retryTimes (retryTimes + 1) 0

/-! #### Batch bookkeeping of `TileDownloader.download_tiles`

Results arrive in an arbitrary order (`asyncio.as_completed`); each
arrived result either inserts its image into the `tile_images` dict and
increments `completed`, or increments `failed`.  After every result the
progress callback is invoked with the current progress snapshot. -/

/-- The resolved outcome for one tile of a batch, as seen by the
`async for` loop of `download_tiles`. -/
structure TileResult where
  x : ℤ
  y : ℤ
  success : Bool
  img : Img

/-- The progress record `DownloadProgress` of
`src/app/core/downloader.py`. -/
structure DownloadProgress where
  total : ℕ
  completed : ℕ
  failed : ℕ
  status : String
deriving DecidableEq

/-- One iteration of the result-processing loop of `download_tiles`:
a successful result stores its image under key `(x, y)` and increments
`completed`; a failed result increments `failed`. -/
def processStep (acc : List ((ℤ × ℤ) × Img) × DownloadProgress)
    (r : TileResult) : List ((ℤ × ℤ) × Img) × DownloadProgress :=
  if r.success then
    (acc.1 ++ [((r.x, r.y), r.img)],
     { acc.2 with completed := acc.2.completed + 1 })
  else
    (acc.1, { acc.2 with failed := acc.2.failed + 1 })

/-- `TileDownloader.download_tiles` on a batch whose per-tile results
arrive in the order given by `results`: returns the success mapping and
the final progress record. -/
def download_tiles (results : List TileResult) :
    List ((ℤ × ℤ) × Img) × DownloadProgress :=
  let out := results.foldl processStep
    ([], ⟨results.length, 0, 0, "downloading"⟩)
  (out.1,
   { out.2 with
      status := if out.2.failed = 0 then "completed"
                else "completed_with_errors" })

/-- The progress snapshot passed to the callback after the first `k`
results of the batch have been processed. -/
def progressAfter (results : List TileResult) (k : ℕ) : DownloadProgress :=
  ((results.take k).foldl processStep
    ([], ⟨results.length, 0, 0, "downloading"⟩)).2

/-- `DownloadProgress.to_dict`: the returned dictionary. -/
structure ProgressDict where
  total : ℕ
  completed : ℕ
  failed : ℕ
  status : String
  percent : ℚ
deriving DecidableEq

/-- Python `round` on rationals: round half to even (banker's
rounding). -/
def pyRound (q : ℚ) : ℤ :=
  if q - ⌊q⌋ < 1 / 2 then ⌊q⌋
  else if 1 / 2 < q - ⌊q⌋ then ⌊q⌋ + 1
  else if Even ⌊q⌋ then ⌊q⌋ else ⌊q⌋ + 1

/-- Python `round(q, 1)`: round to one decimal place. -/
def pyRound1 (q : ℚ) : ℚ := (pyRound (q * 10) : ℚ) / 10

/-- `DownloadProgress.to_dict`: the percent entry is
`round(completed / total * 100, 1)` when `total > 0` and `0`
otherwise. -/
def to_dict (p : DownloadProgress) : ProgressDict :=
  ⟨p.total, p.completed, p.failed, p.status,
   if 0 < p.total then pyRound1 ((p.completed : ℚ) / (p.total : ℚ) * 100)
   else 0⟩

/-! ### Mosaic assembler, from `src/app/core/merger.py` -/

/-- `Image.paste`: overwrite the rectangle of `canvas` whose top-left
corner is `(ox, oy)` and whose extent is `tile`'s size with `tile`'s
pixels.  The canvas dimensions are unchanged. -/
def pasteImg (canvas tile : Img) (ox oy : ℕ) : Img :=
  ⟨canvas.width, canvas.height, fun u v =>
    if ox ≤ u ∧ u < ox + tile.width ∧ oy ≤ v ∧ v < oy + tile.height then
      tile.px (u - ox) (v - oy)
    else canvas.px u v⟩

/-- The size normalization of `merge_tiles`:
`if tile_image.size != (TILE_SIZE, TILE_SIZE): tile_image =
tile_image.resize((TILE_SIZE, TILE_SIZE), LANCZOS)`.  The resampling
filter itself is an abstract parameter `resize`. -/
def fitTile (resize : Img → Img) (img : Img) : Img :=
  if img.width = TILE_SIZE ∧ img.height = TILE_SIZE then img else resize img

/-- `tile_images.get((x, y))` with blank-tile fallback:
`if tile_image is None: tile_image = create_blank_tile()`. -/
def cellTile (tile_images : ℤ × ℤ → Option Img) (p : ℤ × ℤ) : Img :=
  match tile_images p with
  | none => create_blank_tile
  | some img => img

/-- The cell traversal order of the nested loops
`for x in range(x_min, x_max + 1): for y in range(y_min, y_max + 1)`,
as offsets from the grid corner. -/
def cellList (cols rows : ℕ) : List (ℕ × ℕ) :=
  (List.range cols).product (List.range rows)

/-- One paste of the `merge_tiles` loop body for the cell at offset
`(cx, cy)` from the grid corner `(x_min, y_min)`. -/
def mergeStep (resize : Img → Img) (tile_images : ℤ × ℤ → Option Img)
    (x_min y_min : ℤ) (canvas : Img) (c : ℕ × ℕ) : Img :=
  pasteImg canvas
    (fitTile resize (cellTile tile_images (x_min + c.1, y_min + c.2)))
    (c.1 * TILE_SIZE) (c.2 * TILE_SIZE)

/-- `merge_tiles` from `src/app/core/merger.py`: allocate a white RGB
canvas of `cols*TILE_SIZE × rows*TILE_SIZE` pixels and paste every grid
cell's tile (or a blank tile) at
`((x - x_min) * TILE_SIZE, (y - y_min) * TILE_SIZE)`. -/
def merge_tiles (resize : Img → Img) (tile_images : ℤ × ℤ → Option Img)
    (x_min y_min x_max y_max : ℤ) : Img :=
  let cols := (x_max - x_min + 1).toNat
  let rows := (y_max - y_min + 1).toNat
  (cellList cols rows).foldl (mergeStep resize tile_images x_min y_min)
    ⟨cols * TILE_SIZE, rows * TILE_SIZE, fun _ _ => whiteRGB⟩

/-! ### Tile mathematics, from `src/app/core/tile.py`

Python floats are modelled as real numbers; `math.tan`, `math.asinh`,
`math.atan`, `math.sinh`, `math.radians` and `math.degrees` become their
exact real counterparts. -/

/-- Geographic bounds of a tile or of a merged area
(`TileBounds` in `src/app/core/tile.py`). -/
structure TileBounds where
  north : ℝ
  south : ℝ
  east : ℝ
  west : ℝ

/-- A tile coordinate (`TileCoord` in `src/app/core/tile.py`). -/
structure TileCoord where
  x : ℤ
  y : ℤ
  z : ℕ
deriving DecidableEq

/-- `math.radians`. -/
noncomputable def radians (d : ℝ) : ℝ := d * Real.pi / 180

/-- `math.degrees`. -/
noncomputable def degrees (r : ℝ) : ℝ := r * 180 / Real.pi

/-- Python `int(.)` on a real value: truncation toward zero. -/
noncomputable def pyInt (r : ℝ) : ℤ := if 0 ≤ r then ⌊r⌋ else ⌈r⌉

/-- The latitude clamp of `latlng_to_tile_float`:
`lat = max(-85.05112878, min(85.05112878, lat))`. -/
noncomputable def latClamp (lat : ℝ) : ℝ :=
  max (-85.05112878) (min 85.05112878 lat)

/-- `latlng_to_tile_float`: fractional Web Mercator tile coordinates.
`x = (lng + 180) / 360 * n` and
`y = (1 - asinh(tan(radians(lat))) / pi) / 2 * n` with `n = 2 ** zoom`,
after clamping the latitude. -/
noncomputable def latlng_to_tile_float (lat lng : ℝ) (zoom : ℕ) : ℝ × ℝ :=
  let lat' := latClamp lat
  let n : ℝ := 2 ^ zoom
  ((lng + 180) / 360 * n,
   (1 - Real.arsinh (Real.tan (radians lat')) / Real.pi) / 2 * n)

/-- `latlng_to_tile`: integer tile coordinates — `int(.)` of the
fractional coordinates, clamped to `[0, 2 ** zoom - 1]`. -/
noncomputable def latlng_to_tile (lat lng : ℝ) (zoom : ℕ) : ℤ × ℤ :=
  let p := latlng_to_tile_float lat lng zoom
  let n : ℤ := 2 ^ zoom
  (max 0 (min (n - 1) (pyInt p.1)), max 0 (min (n - 1) (pyInt p.2)))

/-- `tile_to_latlng`: geographic bounds of tile `(x, y)` at `zoom` —
inverse Web Mercator of the tile's northwest and southeast corners. -/
noncomputable def tile_to_latlng (x y : ℤ) (zoom : ℕ) : TileBounds :=
  let n : ℝ := 2 ^ zoom
  { north := degrees (Real.arctan (Real.sinh (Real.pi * (1 - 2 * (y : ℝ) / n))))
    south := degrees (Real.arctan (Real.sinh (Real.pi * (1 - 2 * ((y : ℝ) + 1) / n))))
    east := ((x : ℝ) + 1) / n * 360 - 180
    west := (x : ℝ) / n * 360 - 180 }

/-- `get_tiles_in_bounds`: every tile coordinate in the inclusive range
spanned by the tile indices of the northwest corner `(north, west)` and
the southeast corner `(south, east)`, in the order of the nested Python
loops. -/
noncomputable def get_tiles_in_bounds (north south east west : ℝ)
    (zoom : ℕ) : List TileCoord :=
  let nw := latlng_to_tile north west zoom
  let se := latlng_to_tile south east zoom
  (List.range (se.1 - nw.1 + 1).toNat).flatMap fun dx =>
    (List.range (se.2 - nw.2 + 1).toNat).map fun dy =>
      ⟨nw.1 + dx, nw.2 + dy, zoom⟩

/-- `get_tile_matrix_size`: `(x_min, y_min, x_max, y_max, cols, rows)`. -/
noncomputable def get_tile_matrix_size (north south east west : ℝ)
    (zoom : ℕ) : ℤ × ℤ × ℤ × ℤ × ℤ × ℤ :=
  let nw := latlng_to_tile north west zoom
  let se := latlng_to_tile south east zoom
  (nw.1, nw.2, se.1, se.2, se.1 - nw.1 + 1, se.2 - nw.2 + 1)

/-- `estimate_tile_count`: `(x_max - x_min + 1) * (y_max - y_min + 1)`
for the corner tiles of the bounding box. -/
noncomputable def estimate_tile_count (north south east west : ℝ)
    (zoom : ℕ) : ℤ :=
  let nw := latlng_to_tile north west zoom
  let se := latlng_to_tile south east zoom
  (se.1 - nw.1 + 1) * (se.2 - nw.2 + 1)

/-- The loop `for zoom in range(20, 0, -1)` of `get_optimal_zoom`,
counting down from `z`: return the first zoom whose estimated tile count
is at most `max_tiles`, or `1` after the loop. -/
noncomputable def optimalZoomGo (north south east west : ℝ)
    (max_tiles : ℤ) : ℕ → ℕ
  | 0 => 1
  | z + 1 =>
    if estimate_tile_count north south east west (z + 1) ≤ max_tiles then
      z + 1
    else optimalZoomGo north south east west max_tiles z

/-- `get_optimal_zoom`: search zoom levels 20 down to 1; return `1` when
no zoom qualifies. -/
noncomputable def get_optimal_zoom (north south east west : ℝ)
    (max_tiles : ℤ) : ℕ :=
  optimalZoomGo north south east west max_tiles 20

/-! ### Exporter, from `src/app/core/exporter.py`

`RASTERIO_AVAILABLE` and the image codecs are abstract parameters: the
GeoTIFF encoder may fail (`Except`), the PNG and JPEG encoders are total
functions to byte strings. -/

/-- Python `str.lower()` (ASCII): lowercase every character. -/
def pyLower (s : String) : String := ⟨s.data.map Char.toLower⟩

/-- `export_geotiff_bytes`: raises
`RuntimeError("rasterio is required for GeoTIFF export")` when the
backend is unavailable, otherwise runs the in-memory GeoTIFF encoder
(which itself may raise). -/
def export_geotiff_bytes (rasterioAvailable : Bool)
    (geotiffEncode : Img → TileBounds → Except String (List ℕ))
    (image : Img) (bounds : TileBounds) : Except String (List ℕ) :=
  if rasterioAvailable then geotiffEncode image bounds
  else Except.error "rasterio is required for GeoTIFF export"

/-- `export_image` (bytes path, as called by the download endpoint with
`output_path=None`): dispatch on the lowercased format; for `geotiff`,
fall back to PNG bytes with content type `image/png` when the GeoTIFF
step raises. -/
def export_image (rasterioAvailable : Bool)
    (geotiffEncode : Img → TileBounds → Except String (List ℕ))
    (pngEncode jpegEncode : Img → List ℕ)
    (image : Img) (bounds : TileBounds) (format : String) :
    Except String (List ℕ × String) :=
  let fmt := pyLower format
  if fmt = "geotiff" then
    match export_geotiff_bytes rasterioAvailable geotiffEncode image bounds with
    | Except.ok b => Except.ok (b, "image/tiff")
    | Except.error _ => Except.ok (pngEncode image, "image/png")
  else if fmt = "png" then Except.ok (pngEncode image, "image/png")
  else if fmt = "jpeg" ∨ fmt = "jpg" then
    Except.ok (jpegEncode image, "image/jpeg")
  else Except.error ("Unsupported format: " ++ fmt)

/-! ### Download endpoint, from `src/app/api/download.py` -/

/-- The request bounding box (`Bounds` in `src/app/models.py`). -/
structure Bounds where
  north : ℝ
  south : ℝ
  east : ℝ
  west : ℝ

/-- The download request (`DownloadRequest` in `src/app/models.py`). -/
structure DownloadRequest where
  bounds : Option Bounds
  polygon : Option (List (ℝ × ℝ))
  zoom : ℕ
  source : String
  format : String
  crop_to_shape : Bool
  proxy : Option String

/-- An HTTP error raised by the endpoint (`HTTPException`). -/
structure HttpError where
  status_code : ℕ
  detail : String
deriving DecidableEq

/-- Python truthiness of `request.polygon`: `None` and the empty list are
falsy. -/
def polygonTruthy : Option (List (ℝ × ℝ)) → Bool
  | none => false
  | some [] => false
  | some (_ :: _) => true

/-- Python truthiness of `request.bounds`: a model object is truthy. -/
def boundsTruthy : Option Bounds → Bool
  | none => false
  | some _ => true

/-- The bounding box used by the endpoint: derived from the polygon's
coordinate extremes when a (nonempty) polygon is given, else the request
bounds. -/
def requestBounds (req : DownloadRequest) : Bounds :=
  match req.polygon with
  | some (p :: ps) =>
    ⟨(ps.map Prod.fst).foldl max p.1, (ps.map Prod.fst).foldl min p.1,
     (ps.map Prod.snd).foldl max p.2, (ps.map Prod.snd).foldl min p.2⟩
  | _ => req.bounds.getD ⟨0, 0, 0, 0⟩

/-- The maximum allowed tile count of the endpoint (`max_tiles =
1000000`). -/
def maxTilesLimit : ℤ := 1000000

/-- The validation prefix of the `download_tiles` endpoint, up to and
including tile enumeration: check bounds/polygon presence, tile source
key, output format, and the tile-count ceiling, then enumerate the tiles
that will be fetched. -/
noncomputable def validate_download (req : DownloadRequest) :
    Except HttpError (List TileCoord) :=
  if ¬(boundsTruthy req.bounds || polygonTruthy req.polygon) then
    Except.error ⟨400, "Either bounds or polygon is required"⟩
  else if req.source ∉ tileSourceKeys then
    Except.error ⟨400, "Unknown source"⟩
  else if pyLower req.format ∉ ["geotiff", "png", "jpeg", "jpg"] then
    Except.error ⟨400, "Unsupported format"⟩
  else
    let b := requestBounds req
    if maxTilesLimit < estimate_tile_count b.north b.south b.east b.west req.zoom then
      Except.error ⟨400, "Area too large"⟩
    else
      Except.ok (get_tiles_in_bounds b.north b.south b.east b.west req.zoom)

/-- The crop rectangle of the endpoint before clamping:
`left = int((nw_x - x_min) * TILE_SIZE)` and its three companions,
computed from the fractional tile coordinates of the
northwest corner `(north, west)` and the southeast corner
`(south, east)`. -/
structure CropRect where
  left : ℤ
  top : ℤ
  right : ℤ
  bottom : ℤ
deriving DecidableEq

/-- The raw (unclamped) crop rectangle of the endpoint. -/
noncomputable def cropRect (north south east west : ℝ) (zoom : ℕ)
    (x_min y_min : ℤ) : CropRect :=
  let nw := latlng_to_tile_float north west zoom
  let se := latlng_to_tile_float south east zoom
  ⟨pyInt ((nw.1 - (x_min : ℝ)) * (TILE_SIZE : ℝ)),
   pyInt ((nw.2 - (y_min : ℝ)) * (TILE_SIZE : ℝ)),
   pyInt ((se.1 - (x_min : ℝ)) * (TILE_SIZE : ℝ)),
   pyInt ((se.2 - (y_min : ℝ)) * (TILE_SIZE : ℝ))⟩

/-- The clamping step of the endpoint:
`left = max(0, min(left, width))` and companions. -/
def clampCrop (c : CropRect) (width height : ℤ) : CropRect :=
  ⟨max 0 (min c.left width), max 0 (min c.top height),
   max 0 (min c.right width), max 0 (min c.bottom height)⟩

/-- `Image.crop((left, top, right, bottom))`: the cropped bitmap. -/
def cropImage (img : Img) (c : CropRect) : Img :=
  ⟨(c.right - c.left).toNat, (c.bottom - c.top).toNat,
   fun u v => img.px (u + c.left.toNat) (v + c.top.toNat)⟩

/-- The guarded crop step of the endpoint:
`if right > left and bottom > top: merged_image = merged_image.crop(...)`;
otherwise the canvas is left unchanged. -/
def cropStep (img : Img) (c : CropRect) : Img :=
  if c.left < c.right ∧ c.top < c.bottom then cropImage img c else img

/-! ### Concrete fixtures used by witness theorems -/

/-- A constant 256×256 test bitmap. -/
def testTile : Img := ⟨TILE_SIZE, TILE_SIZE, fun _ _ => (1, 2, 3)⟩

/-- A trivial resampler fixture: constant black 256×256 output. -/
def testResize : Img → Img :=
  fun _ => ⟨TILE_SIZE, TILE_SIZE, fun _ _ => (0, 0, 0)⟩

/-- A tile mapping fixture containing only the tile `(0, 0)`. -/
def testMapping : ℤ × ℤ → Option Img :=
  fun p => if p = (0, 0) then some testTile else none

/-- A batch-results fixture: tile `(0, 0)` succeeded, tile `(1, 0)`
failed. -/
def testResults : List TileResult :=
  [⟨0, 0, true, testTile⟩, ⟨1, 0, false, testTile⟩]

/-- A request fixture whose bounding box numerically straddles the
antimeridian (`west = 10.1 > east = 10`) while being valid in every other
respect. -/
noncomputable def straddleRequest : DownloadRequest :=
  ⟨some ⟨0, 0, 10, 10.1⟩, none, 1, "osm", "png", false, none⟩

/-- A request fixture straddling the antimeridian the canonical way
(`west = 170`, `east = -170`), with corner tile indices in reversed
order. -/
noncomputable def wideStraddleRequest : DownloadRequest :=
  ⟨some ⟨0, 0, -170, 170⟩, none, 1, "osm", "png", false, none⟩

/-! ## Theorems -/

/-! ### Retry loop (claim C1) -/

theorem attemptLoop_le (outcome : ℕ → Fetch) (rt : ℕ) :
    ∀ fuel attempt, (attemptLoop outcome rt fuel attempt).attemptsMade ≤ fuel := by
  intro fuel
  induction fuel with
  | zero => intro attempt; simp [attemptLoop]
  | succ n ih =>
    intro attempt
    simp only [attemptLoop]
    split
    · simp
    · split
      · simpa using Nat.succ_le_succ (ih (attempt + 1))
      · simp

theorem attemptLoop_pos (outcome : ℕ → Fetch) (rt : ℕ) :
    ∀ fuel attempt, 0 < fuel →
      1 ≤ (attemptLoop outcome rt fuel attempt).attemptsMade := by
  intro fuel
  induction fuel with
  | zero => intro attempt h; exact absurd h (lt_irrefl 0)
  | succ n ih =>
    intro attempt _
    simp only [attemptLoop]
    split
    · simp
    · split
      · simp
      · simp

theorem attemptLoop_sleeps (outcome : ℕ → Fetch) (rt : ℕ) :
    ∀ fuel attempt, attempt + fuel = rt + 1 →
      (attemptLoop outcome rt fuel attempt).sleeps =
        (List.range ((attemptLoop outcome rt fuel attempt).attemptsMade - 1)).map
          (fun i => 1 * (attempt + i + 1)) := by
  intro fuel
  induction fuel with
  | zero => intro attempt _; simp [attemptLoop]
  | succ n ih =>
    intro attempt hinv
    simp only [attemptLoop]
    split
    · simp
    · split
      · rename_i hfail hlt
        have hn : 0 < n := by omega
        have hpos := attemptLoop_pos outcome rt n (attempt + 1) hn
        simp only []
        rw [ih (attempt + 1) (by omega)]
        obtain ⟨m, hm⟩ : ∃ m, (attemptLoop outcome rt n (attempt + 1)).attemptsMade = m + 1 :=
          ⟨_, (Nat.succ_pred_eq_of_pos hpos).symm⟩
        rw [hm]
        simp only [Nat.add_sub_cancel]
        rw [List.range_succ_eq_map]
        simp only [List.map_cons, List.map_map, List.cons.injEq]
        refine ⟨by trivial, ?_⟩
        apply List.map_congr_left
        intro i _
        simp only [Function.comp_apply]
        omega
      · simp

theorem attemptLoop_failures (outcome : ℕ → Fetch) (rt : ℕ) :
    ∀ fuel attempt k, k + 1 < (attemptLoop outcome rt fuel attempt).attemptsMade →
      outcome (attempt + k) ≠ Fetch.resp 200 := by
  intro fuel
  induction fuel with
  | zero => intro attempt k h; simp [attemptLoop] at h
  | succ n ih =>
    intro attempt k h
    simp only [attemptLoop] at h
    by_cases hok : outcome attempt = Fetch.resp 200
    · simp [hok] at h
    · rw [if_neg hok] at h
      by_cases hlt : attempt < rt
      · rw [if_pos hlt] at h
        simp only [] at h
        cases k with
        | zero => simpa using hok
        | succ j =>
          have hj : j + 1 < (attemptLoop outcome rt n (attempt + 1)).attemptsMade := by
            omega
          have := ih (attempt + 1) j hj
          simpa [Nat.add_comm, Nat.add_left_comm, Nat.add_assoc] using this
      · rw [if_neg hlt] at h
        simp at h

/-- C1 (amended): with the effective retry count
`r = resolveRetryTimes cfg` produced by `TileDownloader.__init__` from the
configured value (a zero or missing configured value falls back to the
default of 3), `_download_tile` performs at least one and at most `r + 1`
attempts, every attempt before the last one observed a transport error,
non-200 response or timeout, and the backoff slept between consecutive
attempts is exactly `1 * (attempt_index + 1)` seconds — it grows linearly
in the attempt index with base delay 1 second. -/
theorem download_tile_retry_policy (cfg : Option ℕ) (outcome : ℕ → Fetch) :
    1 ≤ (download_tile outcome (resolveRetryTimes cfg)).attemptsMade ∧
    (download_tile outcome (resolveRetryTimes cfg)).attemptsMade ≤
      resolveRetryTimes cfg + 1 ∧
    (download_tile outcome (resolveRetryTimes cfg)).sleeps =
      (List.range ((download_tile outcome (resolveRetryTimes cfg)).attemptsMade - 1)).map
        (fun i => 1 * (i + 1)) ∧
    ∀ k, k + 1 < (download_tile outcome (resolveRetryTimes cfg)).attemptsMade →
      outcome k ≠ Fetch.resp 200 := by
  refine ⟨?_, ?_, ?_, ?_⟩
  · exact attemptLoop_pos outcome _ _ 0 (Nat.succ_pos _)
  · exact attemptLoop_le outcome _ _ 0
  · have := attemptLoop_sleeps outcome (resolveRetryTimes cfg)
      (resolveRetryTimes cfg + 1) 0 (by omega)
    simpa [download_tile] using this
  · intro k hk
    have := attemptLoop_failures outcome (resolveRetryTimes cfg)
      (resolveRetryTimes cfg + 1) 0 k hk
    simpa using this

theorem download_tile_retry_policy_witness :
    1 ≤ (download_tile (fun _ => Fetch.timeout) (resolveRetryTimes (some 2))).attemptsMade ∧
    (download_tile (fun _ => Fetch.timeout) (resolveRetryTimes (some 2))).attemptsMade ≤
      resolveRetryTimes (some 2) + 1 ∧
    (fun _ => Fetch.timeout) 0 ≠ Fetch.resp 200 :=
  ⟨(download_tile_retry_policy (some 2) (fun _ => Fetch.timeout)).1,
   (download_tile_retry_policy (some 2) (fun _ => Fetch.timeout)).2.1,
   (download_tile_retry_policy (some 2) (fun _ => Fetch.timeout)).2.2.2 0 (by decide)⟩

/-- C1 counterexample: a caller that configures a retry count of `0`
gets the default of 3 retries instead (`retry_times or
DOWNLOAD_SETTINGS["retry_times"]` treats `0` as falsy), so the per-tile
fetch performs 4 attempts — more than the `0 + 1` the claim allows. -/
theorem download_tile_zero_retry_counterexample :
    (download_tile (fun _ => Fetch.timeout) (resolveRetryTimes (some 0))).attemptsMade = 4 ∧
    ¬((download_tile (fun _ => Fetch.timeout)
        (resolveRetryTimes (some 0))).attemptsMade ≤ 0 + 1) := by
  decide

/-! ### Batch bookkeeping (claims C3 and C4) -/

theorem processFold_total (L : List TileResult) :
    ∀ (m : List ((ℤ × ℤ) × Img)) (p : DownloadProgress),
      (L.foldl processStep (m, p)).2.total = p.total := by
  induction L with
  | nil => intro m p; rfl
  | cons r t ih =>
    intro m p
    simp only [List.foldl_cons, processStep]
    by_cases h : r.success <;> simp [h, ih]

theorem processFold_sum (L : List TileResult) :
    ∀ (m : List ((ℤ × ℤ) × Img)) (p : DownloadProgress),
      (L.foldl processStep (m, p)).2.completed +
        (L.foldl processStep (m, p)).2.failed =
      p.completed + p.failed + L.length := by
  induction L with
  | nil => intro m p; simp
  | cons r t ih =>
    intro m p
    simp only [List.foldl_cons, processStep]
    by_cases h : r.success
    · rw [if_pos h, ih]
      simp only [List.length_cons]
      omega
    · rw [if_neg h, ih]
      simp only [List.length_cons]
      omega

theorem processFold_completed_le (L : List TileResult) :
    ∀ (m : List ((ℤ × ℤ) × Img)) (p : DownloadProgress),
      p.completed ≤ (L.foldl processStep (m, p)).2.completed := by
  induction L with
  | nil => intro m p; simp
  | cons r t ih =>
    intro m p
    simp only [List.foldl_cons, processStep]
    by_cases h : r.success
    · rw [if_pos h]
      exact le_trans (Nat.le_succ _)
        (ih (m ++ [((r.x, r.y), r.img)]) ⟨p.total, p.completed + 1, p.failed, p.status⟩)
    · rw [if_neg h]
      exact ih m ⟨p.total, p.completed, p.failed + 1, p.status⟩

theorem processFold_failed_le (L : List TileResult) :
    ∀ (m : List ((ℤ × ℤ) × Img)) (p : DownloadProgress),
      p.failed ≤ (L.foldl processStep (m, p)).2.failed := by
  induction L with
  | nil => intro m p; simp
  | cons r t ih =>
    intro m p
    simp only [List.foldl_cons, processStep]
    by_cases h : r.success
    · rw [if_pos h]
      exact ih (m ++ [((r.x, r.y), r.img)]) ⟨p.total, p.completed + 1, p.failed, p.status⟩
    · rw [if_neg h]
      exact le_trans (Nat.le_succ _)
        (ih m ⟨p.total, p.completed, p.failed + 1, p.status⟩)

theorem processFold_fst (L : List TileResult) :
    ∀ (m : List ((ℤ × ℤ) × Img)) (p : DownloadProgress),
      (L.foldl processStep (m, p)).1 =
        m ++ (L.filter (fun r => r.success)).map (fun r => ((r.x, r.y), r.img)) := by
  induction L with
  | nil => intro m p; simp
  | cons r t ih =>
    intro m p
    simp only [List.foldl_cons, processStep, List.filter_cons]
    by_cases h : r.success
    · rw [if_pos h]
      simp [h, ih]
    · rw [if_neg h]
      simp [h, ih]

/-- C4: during one run of `download_tiles`, the progress record passed to
the observer callback is monotone — `completed` and `failed` never
decrease from one callback to the next — and at every callback
`completed + failed ≤ total`, with `total` fixed at the number of
requested tiles. -/
theorem download_progress_monotone (results : List TileResult) (k : ℕ)
    (hk : k + 1 ≤ results.length) :
    (progressAfter results k).completed ≤ (progressAfter results (k + 1)).completed ∧
    (progressAfter results k).failed ≤ (progressAfter results (k + 1)).failed ∧
    (progressAfter results (k + 1)).completed + (progressAfter results (k + 1)).failed ≤
      (progressAfter results (k + 1)).total ∧
    (progressAfter results (k + 1)).total = results.length := by
  have hk' : k < results.length := hk
  have hsplit : results.take (k + 1) = results.take k ++ [results[k]] := by
    rw [List.take_succ]
    simp [List.getElem?_eq_getElem hk']
  have hstep : progressAfter results (k + 1) =
      (processStep ((results.take k).foldl processStep
        ([], ⟨results.length, 0, 0, "downloading"⟩)) results[k]).2 := by
    unfold progressAfter
    rw [hsplit, List.foldl_append]
    rfl
  refine ⟨?_, ?_, ?_, ?_⟩
  · rw [hstep]
    unfold progressAfter
    by_cases h : results[k].success <;> simp [processStep, h]
  · rw [hstep]
    unfold progressAfter
    by_cases h : results[k].success <;> simp [processStep, h]
  · unfold progressAfter
    rw [processFold_sum, processFold_total]
    simp only [List.length_take]
    omega
  · unfold progressAfter
    rw [processFold_total]

theorem download_progress_monotone_witness :
    0 + 1 ≤ testResults.length ∧
    ((progressAfter testResults 0).completed ≤ (progressAfter testResults 1).completed ∧
     (progressAfter testResults 0).failed ≤ (progressAfter testResults 1).failed ∧
     (progressAfter testResults 1).completed + (progressAfter testResults 1).failed ≤
       (progressAfter testResults 1).total ∧
     (progressAfter testResults 1).total = testResults.length) :=
  ⟨by simp [testResults], by
    have h := download_progress_monotone testResults 0 (by simp [testResults])
    simpa using h⟩

/-- C3: a tile whose download failed is absent from the returned success
mapping while the batch runs every result to completion
(`completed + failed = total`), and the endpoint's task-level
zero-tiles failure (`if not tile_images: raise HTTPException(500, ...)`)
fires if and only if the success mapping is empty, i.e. iff no tile of
the batch succeeded. -/
theorem download_batch_failure_semantics (results : List TileResult)
    (hkeys : (results.map fun r => (r.x, r.y)).Nodup) :
    (∀ r ∈ results, r.success = false →
      (r.x, r.y) ∉ (download_tiles results).1.map Prod.fst) ∧
    ((download_tiles results).1.isEmpty = true ↔
      ∀ r ∈ results, r.success = false) ∧
    (download_tiles results).2.completed + (download_tiles results).2.failed =
      results.length := by
  have hfst : (download_tiles results).1 =
      (results.filter fun r => r.success).map fun r => ((r.x, r.y), r.img) := by
    unfold download_tiles
    simp only []
    rw [processFold_fst]
    simp
  refine ⟨?_, ?_, ?_⟩
  · intro r hr hfail hmem
    rw [hfst] at hmem
    simp only [List.map_map, List.mem_map, Function.comp_apply] at hmem
    obtain ⟨r', hr'mem, hkey⟩ := hmem
    have hr'2 : r' ∈ results := List.mem_of_mem_filter hr'mem
    have hsucc : r'.success = true := by
      have := List.of_mem_filter hr'mem
      simpa using this
    have heq : r' = r := List.inj_on_of_nodup_map hkeys hr'2 hr hkey
    rw [heq, hfail] at hsucc
    exact Bool.false_ne_true hsucc
  · rw [hfst]
    rw [List.isEmpty_iff, List.map_eq_nil_iff, List.filter_eq_nil_iff]
    simp
  · unfold download_tiles
    simp only []
    rw [processFold_sum]
    simp

theorem download_batch_failure_semantics_witness :
    ((testResults.map fun r => (r.x, r.y)).Nodup) ∧
    ((download_tiles testResults).1.isEmpty = true ↔
      ∀ r ∈ testResults, r.success = false) ∧
    (download_tiles testResults).2.completed +
      (download_tiles testResults).2.failed = testResults.length :=
  ⟨by decide, by
    have h := download_batch_failure_semantics testResults (by decide)
    exact ⟨h.2.1, h.2.2⟩⟩

/-! ### Exporter fallback (claim C9) -/

/-- C9: when the GeoTIFF backend is unavailable or its encoder raises,
`export_image` for format `geotiff` does not fail: it returns the
PNG-encoded bytes with content type `image/png`. -/
theorem export_image_geotiff_fallback (rasterioAvailable : Bool)
    (geotiffEncode : Img → TileBounds → Except String (List ℕ))
    (pngEncode jpegEncode : Img → List ℕ) (image : Img) (bounds : TileBounds)
    (h : rasterioAvailable = false ∨
      ∃ e, geotiffEncode image bounds = Except.error e) :
    export_image rasterioAvailable geotiffEncode pngEncode jpegEncode
      image bounds "geotiff" = Except.ok (pngEncode image, "image/png") := by
  have hfmt : pyLower "geotiff" = "geotiff" := by decide
  rcases h with h | ⟨e, he⟩
  · subst h
    simp [export_image, export_geotiff_bytes, hfmt]
  · cases hav : rasterioAvailable
    · simp [export_image, export_geotiff_bytes, hfmt]
    · simp [export_image, export_geotiff_bytes, hfmt, he]

theorem export_image_geotiff_fallback_witness :
    export_image false (fun _ _ => Except.error "encode failed")
      (fun _ => [7]) (fun _ => [8]) testTile ⟨0, 0, 0, 0⟩ "geotiff" =
      Except.ok ([7], "image/png") :=
  export_image_geotiff_fallback false _ _ _ _ _ (Or.inl rfl)

/-! ### Tile math helper lemmas -/

theorem pyInt_mono {a b : ℝ} (h : a ≤ b) : pyInt a ≤ pyInt b := by
  unfold pyInt
  by_cases ha : 0 ≤ a
  · rw [if_pos ha, if_pos (le_trans ha h)]
    exact Int.floor_le_floor h
  · rw [if_neg ha]
    by_cases hb : 0 ≤ b
    · rw [if_pos hb]
      exact le_trans (Int.ceil_le.mpr (by exact_mod_cast le_of_not_le ha))
        (Int.floor_nonneg.mpr hb)
    · rw [if_neg hb]
      exact Int.ceil_le_ceil h

theorem pyInt_nonpos {a : ℝ} (h : a ≤ 0) : pyInt a ≤ 0 := by
  unfold pyInt
  by_cases ha : 0 ≤ a
  · rw [if_pos ha]
    exact Int.floor_nonpos h
  · rw [if_neg ha]
    exact Int.ceil_le.mpr (by exact_mod_cast h)

theorem pyInt_of_nonneg {a : ℝ} (h : 0 ≤ a) : pyInt a = ⌊a⌋ := if_pos h

theorem latClamp_mem (lat : ℝ) :
    -(85.05112878 : ℝ) ≤ latClamp lat ∧ latClamp lat ≤ 85.05112878 := by
  unfold latClamp
  constructor
  · exact le_max_left _ _
  · exact max_le (by norm_num) (min_le_left _ _)

theorem latClamp_mono {a b : ℝ} (h : a ≤ b) : latClamp a ≤ latClamp b :=
  max_le_max le_rfl (min_le_min le_rfl h)

theorem latClamp_eq_self {lat : ℝ} (h1 : -(85.05112878 : ℝ) ≤ lat)
    (h2 : lat ≤ 85.05112878) : latClamp lat = lat := by
  unfold latClamp
  rw [min_eq_right h2, max_eq_right h1]

theorem radians_mono {a b : ℝ} (h : a ≤ b) : radians a ≤ radians b := by
  unfold radians
  have hp := Real.pi_pos
  nlinarith

theorem radians_latClamp_mem (lat : ℝ) :
    radians (latClamp lat) ∈ Set.Ioo (-(Real.pi / 2)) (Real.pi / 2) := by
  have h := latClamp_mem lat
  have hp := Real.pi_pos
  unfold radians
  constructor
  · nlinarith [h.1]
  · nlinarith [h.2]

theorem mercY_mono {a b : ℝ} (h : a ≤ b) :
    Real.arsinh (Real.tan (radians (latClamp a))) ≤
      Real.arsinh (Real.tan (radians (latClamp b))) := by
  rw [Real.arsinh_le_arsinh]
  exact Real.strictMonoOn_tan.monotoneOn (radians_latClamp_mem a)
    (radians_latClamp_mem b) (radians_mono (latClamp_mono h))

theorem tile_float_x_mono (zoom : ℕ) {a b : ℝ} (h : a ≤ b) (lat1 lat2 : ℝ) :
    (latlng_to_tile_float lat1 a zoom).1 ≤ (latlng_to_tile_float lat2 b zoom).1 := by
  unfold latlng_to_tile_float
  simp only []
  have hn : (0 : ℝ) ≤ 2 ^ zoom := by positivity
  have : (a + 180) / 360 ≤ (b + 180) / 360 := by linarith
  exact mul_le_mul_of_nonneg_right this hn

theorem tile_float_y_antitone (zoom : ℕ) {a b : ℝ} (h : a ≤ b) (lng1 lng2 : ℝ) :
    (latlng_to_tile_float b lng1 zoom).2 ≤ (latlng_to_tile_float a lng2 zoom).2 := by
  unfold latlng_to_tile_float
  simp only []
  have hn : (0 : ℝ) ≤ 2 ^ zoom := by positivity
  have hm := mercY_mono h
  have hdiv : Real.arsinh (Real.tan (radians (latClamp a))) / Real.pi ≤
      Real.arsinh (Real.tan (radians (latClamp b))) / Real.pi :=
    (div_le_div_iff_of_pos_right Real.pi_pos).mpr hm
  have : (1 - Real.arsinh (Real.tan (radians (latClamp b))) / Real.pi) / 2 ≤
      (1 - Real.arsinh (Real.tan (radians (latClamp a))) / Real.pi) / 2 := by
    linarith
  exact mul_le_mul_of_nonneg_right this hn

/-! ### Progress percent (claim C10) -/

/-- C10: `DownloadProgress.to_dict` is total — when `total = 0` the
reported percent is `0`, and when `total > 0` it is
`completed / total * 100` rounded to one decimal place. -/
theorem to_dict_percent_spec (p : DownloadProgress) :
    (p.total = 0 → (to_dict p).percent = 0) ∧
    (0 < p.total →
      (to_dict p).percent = pyRound1 ((p.completed : ℚ) / (p.total : ℚ) * 100)) := by
  constructor
  · intro h; simp [to_dict, h]
  · intro h; simp [to_dict, h]

theorem to_dict_percent_spec_witness :
    (to_dict ⟨0, 0, 0, "pending"⟩).percent = 0 ∧
    (to_dict ⟨3, 1, 0, "downloading"⟩).percent = 333 / 10 := by
  refine ⟨(to_dict_percent_spec ⟨0, 0, 0, "pending"⟩).1 rfl, ?_⟩
  rw [(to_dict_percent_spec ⟨3, 1, 0, "downloading"⟩).2 (by norm_num)]
  have hq : ((1 : ℕ) : ℚ) / ((3 : ℕ) : ℚ) * 100 = 1000 / 3 / 10 := by norm_num
  have hfl : ⌊(1000 / 3 : ℚ)⌋ = 333 := by norm_num [Int.floor_eq_iff]
  simp only [pyRound1, pyRound]
  norm_num [hfl]

/-! ### Optimal zoom search (claim C8) -/

theorem optimalZoomGo_spec (north south east west : ℝ) (mt : ℤ) :
    ∀ z, 1 ≤ optimalZoomGo north south east west mt z ∧
      optimalZoomGo north south east west mt z ≤ max z 1 ∧
      (estimate_tile_count north south east west
          (optimalZoomGo north south east west mt z) ≤ mt ∨
        optimalZoomGo north south east west mt z = 1) ∧
      ∀ u, 1 ≤ u → u ≤ z → estimate_tile_count north south east west u ≤ mt →
        u ≤ optimalZoomGo north south east west mt z := by
  intro z
  induction z with
  | zero =>
    refine ⟨le_refl 1, ?_, Or.inr rfl, ?_⟩
    · simp [optimalZoomGo]
    · intro u hu1 hu0 _
      omega
  | succ n ih =>
    by_cases h : estimate_tile_count north south east west (n + 1) ≤ mt
    · have hgo : optimalZoomGo north south east west mt (n + 1) = n + 1 := by
        unfold optimalZoomGo
        rw [if_pos h]
      refine ⟨?_, ?_, ?_, ?_⟩
      · rw [hgo]; omega
      · rw [hgo]; omega
      · rw [hgo]; exact Or.inl h
      · intro u hu1 hun _
        rw [hgo]; omega
    · have hgo : optimalZoomGo north south east west mt (n + 1) =
          optimalZoomGo north south east west mt n := by
        unfold optimalZoomGo
        rw [if_neg h]
        cases n <;> rfl
      refine ⟨?_, ?_, ?_, ?_⟩
      · rw [hgo]; exact ih.1
      · rw [hgo]
        calc optimalZoomGo north south east west mt n ≤ max n 1 := ih.2.1
          _ ≤ max (n + 1) 1 := max_le_max (Nat.le_succ n) le_rfl
      · rw [hgo]; exact ih.2.2.1
      · intro u hu1 hun hcount
        rw [hgo]
        rcases Nat.lt_or_ge u (n + 1) with hu | hu
        · exact ih.2.2.2 u hu1 (by omega) hcount
        · have : u = n + 1 := by omega
          rw [this] at hcount
          exact absurd hcount h

/-- C8: `get_optimal_zoom` always returns a zoom level in the searched
range `[1, 20]`; its result either satisfies the tile budget or is the
minimum zoom 1 (returned when no searched zoom qualifies); and every
zoom in the searched range that satisfies the budget is at most the
result — the result is the largest qualifying zoom, found by searching
from the maximum supported zoom downward, and the search never fails. -/
theorem get_optimal_zoom_spec (north south east west : ℝ) (max_tiles : ℤ) :
    1 ≤ get_optimal_zoom north south east west max_tiles ∧
    get_optimal_zoom north south east west max_tiles ≤ 20 ∧
    (estimate_tile_count north south east west
        (get_optimal_zoom north south east west max_tiles) ≤ max_tiles ∨
      get_optimal_zoom north south east west max_tiles = 1) ∧
    ∀ z, 1 ≤ z → z ≤ 20 →
      estimate_tile_count north south east west z ≤ max_tiles →
      z ≤ get_optimal_zoom north south east west max_tiles := by
  have h := optimalZoomGo_spec north south east west max_tiles 20
  exact ⟨h.1, le_trans h.2.1 (by norm_num), h.2.2.1, h.2.2.2⟩

theorem estimate_tile_count_point (lat lng : ℝ) (z : ℕ) :
    estimate_tile_count lat lat lng lng z = 1 := by
  unfold estimate_tile_count
  ring_nf

theorem get_optimal_zoom_spec_witness :
    1 ≤ get_optimal_zoom 0 0 0 0 1000 ∧
    get_optimal_zoom 0 0 0 0 1000 ≤ 20 ∧
    20 ≤ get_optimal_zoom 0 0 0 0 1000 :=
  ⟨(get_optimal_zoom_spec 0 0 0 0 1000).1,
   (get_optimal_zoom_spec 0 0 0 0 1000).2.1,
   (get_optimal_zoom_spec 0 0 0 0 1000).2.2.2 20 (by norm_num) (le_refl 20)
     (by rw [estimate_tile_count_point]; norm_num)⟩

/-! ### Crop rectangle safety (claim C5) -/

/-- C5: for every requested bounding box (`west ≤ east`,
`south ≤ north`), zoom, grid corner and canvas size, the crop rectangle
computed by the endpoint from the fractional tile coordinates and then
clamped satisfies `0 ≤ left ≤ right ≤ width` and
`0 ≤ top ≤ bottom ≤ height` — grid-boundary fractional coordinates
included — and whenever `right ≤ left` or `bottom ≤ top` the crop step
leaves the canvas unchanged. -/
theorem crop_rect_within_canvas (north south east west : ℝ) (zoom : ℕ)
    (x_min y_min : ℤ) (width height : ℕ)
    (hwe : west ≤ east) (hsn : south ≤ north) :
    0 ≤ (clampCrop (cropRect north south east west zoom x_min y_min)
        (width : ℤ) (height : ℤ)).left ∧
    (clampCrop (cropRect north south east west zoom x_min y_min)
        (width : ℤ) (height : ℤ)).left ≤
      (clampCrop (cropRect north south east west zoom x_min y_min)
        (width : ℤ) (height : ℤ)).right ∧
    (clampCrop (cropRect north south east west zoom x_min y_min)
        (width : ℤ) (height : ℤ)).right ≤ (width : ℤ) ∧
    0 ≤ (clampCrop (cropRect north south east west zoom x_min y_min)
        (width : ℤ) (height : ℤ)).top ∧
    (clampCrop (cropRect north south east west zoom x_min y_min)
        (width : ℤ) (height : ℤ)).top ≤
      (clampCrop (cropRect north south east west zoom x_min y_min)
        (width : ℤ) (height : ℤ)).bottom ∧
    (clampCrop (cropRect north south east west zoom x_min y_min)
        (width : ℤ) (height : ℤ)).bottom ≤ (height : ℤ) ∧
    ∀ img : Img,
      ((clampCrop (cropRect north south east west zoom x_min y_min)
          (width : ℤ) (height : ℤ)).right ≤
        (clampCrop (cropRect north south east west zoom x_min y_min)
          (width : ℤ) (height : ℤ)).left ∨
       (clampCrop (cropRect north south east west zoom x_min y_min)
          (width : ℤ) (height : ℤ)).bottom ≤
        (clampCrop (cropRect north south east west zoom x_min y_min)
          (width : ℤ) (height : ℤ)).top) →
      cropStep img (clampCrop (cropRect north south east west zoom x_min y_min)
        (width : ℤ) (height : ℤ)) = img := by
  have hW : (0 : ℤ) ≤ (width : ℤ) := Int.ofNat_nonneg width
  have hH : (0 : ℤ) ≤ (height : ℤ) := Int.ofNat_nonneg height
  have hraw_lr : (cropRect north south east west zoom x_min y_min).left ≤
      (cropRect north south east west zoom x_min y_min).right := by
    unfold cropRect
    apply pyInt_mono
    have := tile_float_x_mono zoom hwe north south
    have hT : (0 : ℝ) ≤ (TILE_SIZE : ℝ) := by norm_num [TILE_SIZE]
    nlinarith
  have hraw_tb : (cropRect north south east west zoom x_min y_min).top ≤
      (cropRect north south east west zoom x_min y_min).bottom := by
    unfold cropRect
    apply pyInt_mono
    have := tile_float_y_antitone zoom hsn west east
    have hT : (0 : ℝ) ≤ (TILE_SIZE : ℝ) := by norm_num [TILE_SIZE]
    nlinarith
  refine ⟨le_max_left 0 _, ?_, ?_, le_max_left 0 _, ?_, ?_, ?_⟩
  · exact max_le_max le_rfl (min_le_min hraw_lr le_rfl)
  · exact max_le hW (min_le_right _ _)
  · exact max_le_max le_rfl (min_le_min hraw_tb le_rfl)
  · exact max_le hH (min_le_right _ _)
  · intro img h
    unfold cropStep
    rw [if_neg]
    rintro ⟨h1, h2⟩
    rcases h with h | h
    · omega
    · omega

theorem crop_rect_within_canvas_witness :
    0 ≤ (clampCrop (cropRect 0 0 0 0 0 0 0) ((256 : ℕ) : ℤ) ((256 : ℕ) : ℤ)).left ∧
    (clampCrop (cropRect 0 0 0 0 0 0 0) ((256 : ℕ) : ℤ) ((256 : ℕ) : ℤ)).left ≤
      (clampCrop (cropRect 0 0 0 0 0 0 0) ((256 : ℕ) : ℤ) ((256 : ℕ) : ℤ)).right ∧
    (clampCrop (cropRect 0 0 0 0 0 0 0) ((256 : ℕ) : ℤ) ((256 : ℕ) : ℤ)).right ≤
      ((256 : ℕ) : ℤ) :=
  ⟨(crop_rect_within_canvas 0 0 0 0 0 0 0 256 256 le_rfl le_rfl).1,
   (crop_rect_within_canvas 0 0 0 0 0 0 0 256 256 le_rfl le_rfl).2.1,
   (crop_rect_within_canvas 0 0 0 0 0 0 0 256 256 le_rfl le_rfl).2.2.1⟩

/-! ### Mosaic assembly (claim C7) -/

theorem fitTile_size (resize : Img → Img)
    (hres : ∀ img, (resize img).width = TILE_SIZE ∧ (resize img).height = TILE_SIZE)
    (img : Img) :
    (fitTile resize img).width = TILE_SIZE ∧
      (fitTile resize img).height = TILE_SIZE := by
  unfold fitTile
  by_cases h : img.width = TILE_SIZE ∧ img.height = TILE_SIZE
  · rw [if_pos h]; exact h
  · rw [if_neg h]; exact hres img

theorem cell_point_eq {c cx i : ℕ} (hi : i < TILE_SIZE)
    (h1 : c * TILE_SIZE ≤ cx * TILE_SIZE + i)
    (h2 : cx * TILE_SIZE + i < c * TILE_SIZE + TILE_SIZE) : c = cx := by
  simp only [TILE_SIZE] at hi h1 h2
  omega

theorem mergeFold_width (resize : Img → Img) (tile_images : ℤ × ℤ → Option Img)
    (x_min y_min : ℤ) :
    ∀ (L : List (ℕ × ℕ)) (canvas : Img),
      ((L.foldl (mergeStep resize tile_images x_min y_min) canvas)).width =
        canvas.width ∧
      ((L.foldl (mergeStep resize tile_images x_min y_min) canvas)).height =
        canvas.height := by
  intro L
  induction L with
  | nil => intro canvas; exact ⟨rfl, rfl⟩
  | cons c t ih =>
    intro canvas
    rw [List.foldl_cons]
    exact ih (mergeStep resize tile_images x_min y_min canvas c)

theorem mergeFold_px_notmem (resize : Img → Img)
    (tile_images : ℤ × ℤ → Option Img) (x_min y_min : ℤ)
    (hres : ∀ img, (resize img).width = TILE_SIZE ∧ (resize img).height = TILE_SIZE) :
    ∀ (L : List (ℕ × ℕ)) (canvas : Img) (cx cy i j : ℕ),
      i < TILE_SIZE → j < TILE_SIZE → (cx, cy) ∉ L →
      ((L.foldl (mergeStep resize tile_images x_min y_min) canvas)).px
          (cx * TILE_SIZE + i) (cy * TILE_SIZE + j) =
        canvas.px (cx * TILE_SIZE + i) (cy * TILE_SIZE + j) := by
  intro L
  induction L with
  | nil => intros; rfl
  | cons c t ih =>
    intro canvas cx cy i j hi hj hmem
    rw [List.foldl_cons]
    rw [ih _ cx cy i j hi hj (fun h => hmem (List.mem_cons_of_mem c h))]
    show (pasteImg canvas _ _ _).px _ _ = canvas.px _ _
    unfold pasteImg
    simp only []
    rw [if_neg]
    rintro ⟨h1, h2, h3, h4⟩
    rw [(fitTile_size resize hres _).1] at h2
    rw [(fitTile_size resize hres _).2] at h4
    have hcx : c.1 = cx := cell_point_eq hi h1 h2
    have hcy : c.2 = cy := cell_point_eq hj h3 h4
    apply hmem
    have : c = (cx, cy) := by
      rw [← hcx, ← hcy]
    rw [← this]
    exact List.mem_cons_self c t

theorem mergeFold_px_mem (resize : Img → Img)
    (tile_images : ℤ × ℤ → Option Img) (x_min y_min : ℤ)
    (hres : ∀ img, (resize img).width = TILE_SIZE ∧ (resize img).height = TILE_SIZE) :
    ∀ (L : List (ℕ × ℕ)) (canvas : Img) (cx cy i j : ℕ),
      i < TILE_SIZE → j < TILE_SIZE → (cx, cy) ∈ L → L.Nodup →
      ((L.foldl (mergeStep resize tile_images x_min y_min) canvas)).px
          (cx * TILE_SIZE + i) (cy * TILE_SIZE + j) =
        (fitTile resize (cellTile tile_images
          (x_min + (cx : ℤ), y_min + (cy : ℤ)))).px i j := by
  intro L
  induction L with
  | nil =>
    intro _ _ _ _ _ _ _ hmem _
    exact absurd hmem (List.not_mem_nil _)
  | cons c t ih =>
    intro canvas cx cy i j hi hj hmem hnodup
    rw [List.foldl_cons]
    rcases List.mem_cons.mp hmem with heq | hmem'
    · have hnott : (cx, cy) ∉ t := by
        rw [heq]
        exact (List.nodup_cons.mp hnodup).1
      rw [mergeFold_px_notmem resize tile_images x_min y_min hres t _ cx cy i j hi hj hnott]
      have hc : c = (cx, cy) := heq.symm
      subst hc
      show (pasteImg canvas _ _ _).px _ _ = _
      unfold pasteImg
      simp only []
      rw [if_pos]
      · congr 1 <;> omega
      · refine ⟨Nat.le_add_right _ _, ?_, Nat.le_add_right _ _, ?_⟩
        · rw [(fitTile_size resize hres _).1]
          omega
        · rw [(fitTile_size resize hres _).2]
          omega
    · exact ih (mergeStep resize tile_images x_min y_min canvas c) cx cy i j hi hj
        hmem' (List.nodup_cons.mp hnodup).2

/-- C7: `merge_tiles` returns an RGB canvas of exactly
`cols*TILE_SIZE × rows*TILE_SIZE` pixels in which every grid cell whose
tile is absent from the mapping consists entirely of the white blank-tile
fill, and every grid cell whose tile is present equals its source bitmap
pasted at `((x - x_min)*TILE_SIZE, (y - y_min)*TILE_SIZE)`, resampled to
`TILE_SIZE × TILE_SIZE` first when its size differs. -/
theorem merge_tiles_cells (resize : Img → Img)
    (tile_images : ℤ × ℤ → Option Img) (x_min y_min x_max y_max : ℤ)
    (hx : x_min ≤ x_max) (hy : y_min ≤ y_max)
    (hres : ∀ img, (resize img).width = TILE_SIZE ∧ (resize img).height = TILE_SIZE) :
    (merge_tiles resize tile_images x_min y_min x_max y_max).width =
      (x_max - x_min + 1).toNat * TILE_SIZE ∧
    (merge_tiles resize tile_images x_min y_min x_max y_max).height =
      (y_max - y_min + 1).toNat * TILE_SIZE ∧
    ∀ x y : ℤ, x_min ≤ x → x ≤ x_max → y_min ≤ y → y ≤ y_max →
      ∀ i j : ℕ, i < TILE_SIZE → j < TILE_SIZE →
        (merge_tiles resize tile_images x_min y_min x_max y_max).px
            ((x - x_min).toNat * TILE_SIZE + i) ((y - y_min).toNat * TILE_SIZE + j) =
          match tile_images (x, y) with
          | none => whiteRGB
          | some img => (fitTile resize img).px i j := by
  unfold merge_tiles
  simp only []
  refine ⟨(mergeFold_width _ _ _ _ _ _).1, (mergeFold_width _ _ _ _ _ _).2, ?_⟩
  intro x y hx1 hx2 hy1 hy2 i j hi hj
  have hcx : ((x - x_min).toNat, (y - y_min).toNat) ∈
      cellList (x_max - x_min + 1).toNat (y_max - y_min + 1).toNat := by
    unfold cellList
    refine List.mem_product.mpr ⟨?_, ?_⟩ <;> rw [List.mem_range] <;> omega
  have hnodup : (cellList (x_max - x_min + 1).toNat (y_max - y_min + 1).toNat).Nodup :=
    List.Nodup.product (List.nodup_range _) (List.nodup_range _)
  rw [mergeFold_px_mem resize tile_images x_min y_min hres _ _ _ _ i j hi hj hcx hnodup]
  have hxe : x_min + ((x - x_min).toNat : ℤ) = x := by omega
  have hye : y_min + ((y - y_min).toNat : ℤ) = y := by omega
  rw [hxe, hye]
  unfold cellTile
  cases htile : tile_images (x, y)
  · simp only []
    unfold fitTile
    rw [if_pos ⟨rfl, rfl⟩]
    rfl
  · rfl

theorem merge_tiles_cells_witness :
    (merge_tiles testResize testMapping 0 0 0 0).width =
      ((0 : ℤ) - 0 + 1).toNat * TILE_SIZE ∧
    ∀ i j : ℕ, i < TILE_SIZE → j < TILE_SIZE →
      (merge_tiles testResize testMapping 0 0 0 0).px
          (((0 : ℤ) - 0).toNat * TILE_SIZE + i) (((0 : ℤ) - 0).toNat * TILE_SIZE + j) =
        match testMapping (0, 0) with
        | none => whiteRGB
        | some img => (fitTile testResize img).px i j :=
  ⟨(merge_tiles_cells testResize testMapping 0 0 0 0 le_rfl le_rfl
      (fun _ => ⟨rfl, rfl⟩)).1,
   fun i j hi hj =>
    (merge_tiles_cells testResize testMapping 0 0 0 0 le_rfl le_rfl
      (fun _ => ⟨rfl, rfl⟩)).2.2 0 0 le_rfl le_rfl le_rfl le_rfl i j hi hj⟩

/-! ### Antimeridian handling of the endpoint (claim C2) -/

theorem pyInt_eval {r : ℝ} {z : ℤ} (h0 : 0 ≤ r) (h1 : (z : ℝ) ≤ r)
    (h2 : r < z + 1) : pyInt r = z := by
  rw [pyInt_of_nonneg h0]
  exact Int.floor_eq_iff.mpr ⟨h1, h2⟩

theorem mercY_zero : Real.arsinh (Real.tan (radians (latClamp 0))) = 0 := by
  rw [latClamp_eq_self (by norm_num) (by norm_num)]
  unfold radians
  norm_num [Real.tan_zero, Real.arsinh_zero]

theorem latlng_to_tile_eval_z1 (lng : ℝ) (xi : ℤ)
    (h0 : 0 ≤ xi) (h1 : xi ≤ 1)
    (hlo : (xi : ℝ) ≤ (lng + 180) / 360 * 2)
    (hhi : (lng + 180) / 360 * 2 < (xi : ℝ) + 1) :
    latlng_to_tile 0 lng 1 = (xi, 1) := by
  have h0r : (0 : ℝ) ≤ (lng + 180) / 360 * 2 :=
    le_trans (by exact_mod_cast h0) hlo
  unfold latlng_to_tile latlng_to_tile_float
  simp only [mercY_zero]
  have hx : pyInt ((lng + 180) / 360 * 2 ^ (1 : ℕ)) = xi := by
    rw [pow_one]
    exact pyInt_eval h0r hlo hhi
  have hy : pyInt ((1 - 0 / Real.pi) / 2 * 2 ^ (1 : ℕ)) = 1 := by
    have he : (1 - 0 / Real.pi) / 2 * (2 : ℝ) ^ (1 : ℕ) = 1 := by norm_num
    rw [he]
    apply pyInt_eval <;> norm_num
  rw [hx, hy]
  have h2 : ((2 : ℤ) ^ (1 : ℕ) - 1) = 1 := by norm_num
  rw [h2, min_eq_right h1, max_eq_right h0]
  norm_num

theorem tile_eval_lng101 : latlng_to_tile 0 10.1 1 = (1, 1) := by
  apply latlng_to_tile_eval_z1 <;> norm_num

theorem tile_eval_lng10 : latlng_to_tile 0 10 1 = (1, 1) := by
  apply latlng_to_tile_eval_z1 <;> norm_num

theorem tile_eval_lng170 : latlng_to_tile 0 170 1 = (1, 1) := by
  apply latlng_to_tile_eval_z1 <;> norm_num

theorem tile_eval_lngm170 : latlng_to_tile 0 (-170) 1 = (0, 1) := by
  apply latlng_to_tile_eval_z1 <;> norm_num

theorem straddle_tiles : get_tiles_in_bounds 0 0 10 10.1 1 = [⟨1, 1, 1⟩] := by
  unfold get_tiles_in_bounds
  simp only [tile_eval_lng101, tile_eval_lng10]
  decide

theorem straddle_count : estimate_tile_count 0 0 10 10.1 1 = 1 := by
  unfold estimate_tile_count
  simp only [tile_eval_lng101, tile_eval_lng10]
  decide

theorem wide_straddle_tiles : get_tiles_in_bounds 0 0 (-170) 170 1 = [] := by
  unfold get_tiles_in_bounds
  simp only [tile_eval_lng170, tile_eval_lngm170]
  decide

theorem wide_straddle_count : estimate_tile_count 0 0 (-170) 170 1 = 0 := by
  unfold estimate_tile_count
  simp only [tile_eval_lng170, tile_eval_lngm170]
  decide

/-- C2 counterexample: the request whose bounding box has
`west = 10.1 > east = 10` — a bbox that straddles the antimeridian in the
claim's numeric sense — is not rejected by the endpoint's input
validation: validation succeeds and the pipeline proceeds to enumerate a
nonempty tile list (the sliver grid spanned by the corner tiles), which
it then fetches.  No input-validation error is raised before tiles are
fetched. -/
theorem antimeridian_passes_validation_counterexample :
    (10.1 : ℝ) > 10 ∧
    validate_download straddleRequest = Except.ok [⟨1, 1, 1⟩] ∧
    ([⟨1, 1, 1⟩] : List TileCoord) ≠ [] := by
  refine ⟨by norm_num, ?_, by decide⟩
  unfold validate_download straddleRequest
  rw [if_neg (by simp [boundsTruthy]), if_neg (by decide), if_neg (by decide)]
  have hrb : requestBounds ⟨some ⟨0, 0, 10, 10.1⟩, none, 1, "osm", "png", false, none⟩ =
      ⟨0, 0, 10, 10.1⟩ := rfl
  rw [hrb]
  simp only []
  rw [if_neg (by rw [straddle_count]; decide), straddle_tiles]

/-- C2 (amended): a request whose bbox straddles the antimeridian
(`east < west` numerically) is not rejected as an input-validation
error: provided its other fields are valid, validation succeeds and the
pipeline proceeds to enumerate (and then fetch) the tile grid spanned by
the corner tile indices — an empty grid (leading to the later task-level
zero-tiles failure) when the west corner tile index exceeds the east
one, a nonempty sliver grid otherwise. -/
theorem antimeridian_not_validated (req : DownloadRequest) (b : Bounds)
    (hb : req.bounds = some b) (hpoly : req.polygon = none)
    (hsrc : req.source ∈ tileSourceKeys)
    (hfmt : pyLower req.format ∈ ["geotiff", "png", "jpeg", "jpg"])
    (hcount : estimate_tile_count b.north b.south b.east b.west req.zoom ≤ maxTilesLimit)
    (hwe : b.east < b.west) :
    validate_download req =
      Except.ok (get_tiles_in_bounds b.north b.south b.east b.west req.zoom) := by
  unfold validate_download
  have hbt : (boundsTruthy req.bounds || polygonTruthy req.polygon) = true := by
    rw [hb]
    simp [boundsTruthy]
  have hrb : requestBounds req = b := by
    unfold requestBounds
    rw [hpoly, hb]
    rfl
  rw [if_neg (not_not_intro hbt), if_neg (not_not_intro hsrc),
    if_neg (not_not_intro hfmt), hrb]
  simp only []
  rw [if_neg (not_lt.mpr hcount)]

theorem antimeridian_not_validated_witness :
    validate_download wideStraddleRequest =
      Except.ok (get_tiles_in_bounds 0 0 (-170) 170 1) :=
  antimeridian_not_validated wideStraddleRequest ⟨0, 0, -170, 170⟩ rfl rfl
    (by decide) (by decide)
    (by show estimate_tile_count 0 0 (-170) 170 1 ≤ maxTilesLimit
        rw [wide_straddle_count]
        decide)
    (by norm_num)

/-! ### Web Mercator roundtrip (claim C6) -/

theorem latlng_to_tile_fst (lat lng : ℝ) (zoom : ℕ) :
    (latlng_to_tile lat lng zoom).1 =
      max 0 (min ((2 : ℤ) ^ zoom - 1)
        (pyInt ((latlng_to_tile_float lat lng zoom).1))) := rfl

theorem latlng_to_tile_snd (lat lng : ℝ) (zoom : ℕ) :
    (latlng_to_tile lat lng zoom).2 =
      max 0 (min ((2 : ℤ) ^ zoom - 1)
        (pyInt ((latlng_to_tile_float lat lng zoom).2))) := rfl

theorem latlng_to_tile_float_fst (lat lng : ℝ) (zoom : ℕ) :
    (latlng_to_tile_float lat lng zoom).1 =
      (lng + 180) / 360 * 2 ^ zoom := rfl

theorem latlng_to_tile_float_snd (lat lng : ℝ) (zoom : ℕ) :
    (latlng_to_tile_float lat lng zoom).2 =
      (1 - Real.arsinh (Real.tan (radians (latClamp lat))) / Real.pi) / 2 *
        2 ^ zoom := rfl

theorem tile_to_latlng_north (x y : ℤ) (zoom : ℕ) :
    (tile_to_latlng x y zoom).north =
      degrees (Real.arctan (Real.sinh
        (Real.pi * (1 - 2 * (y : ℝ) / 2 ^ zoom)))) := rfl

theorem tile_to_latlng_south (x y : ℤ) (zoom : ℕ) :
    (tile_to_latlng x y zoom).south =
      degrees (Real.arctan (Real.sinh
        (Real.pi * (1 - 2 * ((y : ℝ) + 1) / 2 ^ zoom)))) := rfl

theorem tile_to_latlng_west (x y : ℤ) (zoom : ℕ) :
    (tile_to_latlng x y zoom).west = (x : ℝ) / 2 ^ zoom * 360 - 180 := rfl

theorem tile_to_latlng_east (x y : ℤ) (zoom : ℕ) :
    (tile_to_latlng x y zoom).east =
      ((x : ℝ) + 1) / 2 ^ zoom * 360 - 180 := rfl

theorem clampIndex_bracket {v : ℝ} {m : ℤ} (hm : 1 ≤ m) (h0 : 0 ≤ v)
    (hv : v ≤ (m : ℝ)) :
    ((max 0 (min (m - 1) (pyInt v)) : ℤ) : ℝ) ≤ v ∧
    v ≤ ((max 0 (min (m - 1) (pyInt v)) : ℤ) : ℝ) + 1 ∧
    0 ≤ max 0 (min (m - 1) (pyInt v)) ∧
    max 0 (min (m - 1) (pyInt v)) ≤ m - 1 := by
  rw [pyInt_of_nonneg h0]
  by_cases hle : ⌊v⌋ ≤ m - 1
  · have hfl0 : 0 ≤ ⌊v⌋ := Int.floor_nonneg.mpr h0
    rw [min_eq_right hle, max_eq_right hfl0]
    refine ⟨Int.floor_le v, ?_, hfl0, hle⟩
    have := Int.lt_floor_add_one v
    push_cast at this ⊢
    linarith
  · push_neg at hle
    have hle2 : m ≤ ⌊v⌋ := by omega
    have hmf : (m : ℝ) ≤ (⌊v⌋ : ℝ) := by exact_mod_cast hle2
    have hvm : v = (m : ℝ) := le_antisymm hv (le_trans hmf (Int.floor_le v))
    rw [min_eq_left (by omega), max_eq_right (by omega)]
    refine ⟨?_, ?_, by omega, le_refl _⟩
    · rw [hvm]; push_cast; linarith
    · rw [hvm]; push_cast; linarith

theorem degrees_radians (x : ℝ) : degrees (radians x) = x := by
  unfold degrees radians
  field_simp

theorem degrees_mono {a b : ℝ} (h : a ≤ b) : degrees a ≤ degrees b := by
  unfold degrees
  exact (div_le_div_iff_of_pos_right Real.pi_pos).mpr (by linarith)

/-- C6 (amended): for every longitude in `[-180, 180]`, every zoom
level, and every latitude within both the clamp range `±85.05112878` and
the exact Web Mercator latitude limit `arctan (sinh π)` (≈
85.05112877980659°, slightly *less* than the rounded-up constant
85.05112878 used by the code), the geographic bounds returned by
`tile_to_latlng` of the tile index from `latlng_to_tile` contain the
point: `south ≤ lat ≤ north` and `west ≤ lng ≤ east`. -/
theorem tile_roundtrip_contains (lat lng : ℝ) (zoom : ℕ)
    (hlat1 : |lat| ≤ 85.05112878)
    (hlat2 : |radians lat| ≤ Real.arctan (Real.sinh Real.pi))
    (hlng : |lng| ≤ 180) :
    (tile_to_latlng (latlng_to_tile lat lng zoom).1
        (latlng_to_tile lat lng zoom).2 zoom).south ≤ lat ∧
    lat ≤ (tile_to_latlng (latlng_to_tile lat lng zoom).1
        (latlng_to_tile lat lng zoom).2 zoom).north ∧
    (tile_to_latlng (latlng_to_tile lat lng zoom).1
        (latlng_to_tile lat lng zoom).2 zoom).west ≤ lng ∧
    lng ≤ (tile_to_latlng (latlng_to_tile lat lng zoom).1
        (latlng_to_tile lat lng zoom).2 zoom).east := by
  obtain ⟨hlat1a, hlat1b⟩ := abs_le.mp hlat1
  obtain ⟨hlat2a, hlat2b⟩ := abs_le.mp hlat2
  obtain ⟨hlnga, hlngb⟩ := abs_le.mp hlng
  have hpi := Real.pi_pos
  have hn0 : (0 : ℝ) < 2 ^ zoom := by positivity
  have hm1 : (1 : ℤ) ≤ 2 ^ zoom := by
    have : (0 : ℤ) < 2 ^ zoom := pow_pos two_pos zoom
    omega
  have hmcast : (((2 : ℤ) ^ zoom : ℤ) : ℝ) = 2 ^ zoom := by push_cast; ring
  -- x side
  have hfx0 : 0 ≤ (lng + 180) / 360 * 2 ^ zoom := by
    apply mul_nonneg (div_nonneg (by linarith) (by norm_num)) (le_of_lt hn0)
  have hfxn : (lng + 180) / 360 * 2 ^ zoom ≤ (((2 : ℤ) ^ zoom : ℤ) : ℝ) := by
    rw [hmcast]
    nlinarith
  have hx := clampIndex_bracket hm1 hfx0 hfxn
  -- y side
  have hT2 := Real.arctan_lt_pi_div_two (Real.sinh Real.pi)
  have hT2n := Real.neg_pi_div_two_lt_arctan (Real.sinh Real.pi)
  have hθmem : radians lat ∈ Set.Ioo (-(Real.pi / 2)) (Real.pi / 2) :=
    ⟨lt_of_lt_of_le (by linarith) hlat2a, lt_of_le_of_lt hlat2b hT2⟩
  have hTmem : Real.arctan (Real.sinh Real.pi) ∈
      Set.Ioo (-(Real.pi / 2)) (Real.pi / 2) := ⟨hT2n, hT2⟩
  have hTnmem : -Real.arctan (Real.sinh Real.pi) ∈
      Set.Ioo (-(Real.pi / 2)) (Real.pi / 2) := ⟨by linarith, by linarith⟩
  have hcl : latClamp lat = lat := latClamp_eq_self hlat1a hlat1b
  have htan_ub : Real.tan (radians lat) ≤ Real.sinh Real.pi := by
    have h := Real.strictMonoOn_tan.monotoneOn hθmem hTmem hlat2b
    rwa [Real.tan_arctan] at h
  have htan_lb : -Real.sinh Real.pi ≤ Real.tan (radians lat) := by
    have h := Real.strictMonoOn_tan.monotoneOn hTnmem hθmem hlat2a
    rwa [Real.tan_neg, Real.tan_arctan] at h
  have hA_ub : Real.arsinh (Real.tan (radians lat)) ≤ Real.pi := by
    have h := Real.arsinh_le_arsinh.mpr htan_ub
    rwa [Real.arsinh_sinh] at h
  have hA_lb : -Real.pi ≤ Real.arsinh (Real.tan (radians lat)) := by
    have h := Real.arsinh_le_arsinh.mpr htan_lb
    rwa [← Real.sinh_neg, Real.arsinh_sinh] at h
  have hsA : Real.sinh (Real.arsinh (Real.tan (radians lat))) =
      Real.tan (radians lat) := Real.sinh_arsinh _
  have hvy0 : 0 ≤
      (1 - Real.arsinh (Real.tan (radians (latClamp lat))) / Real.pi) / 2 *
        2 ^ zoom := by
    rw [hcl]
    have h1 : Real.arsinh (Real.tan (radians lat)) / Real.pi ≤ 1 :=
      (div_le_one hpi).mpr hA_ub
    apply mul_nonneg (div_nonneg (by linarith) (by norm_num)) (le_of_lt hn0)
  have hvyn :
      (1 - Real.arsinh (Real.tan (radians (latClamp lat))) / Real.pi) / 2 *
        2 ^ zoom ≤ (((2 : ℤ) ^ zoom : ℤ) : ℝ) := by
    rw [hcl, hmcast]
    have h1 : (-1 : ℝ) ≤ Real.arsinh (Real.tan (radians lat)) / Real.pi := by
      rw [le_div_iff₀ hpi]
      linarith
    nlinarith
  have hy := clampIndex_bracket hm1 hvy0 hvyn
  rw [tile_to_latlng_north, tile_to_latlng_south, tile_to_latlng_west,
    tile_to_latlng_east, latlng_to_tile_fst, latlng_to_tile_snd,
    latlng_to_tile_float_fst, latlng_to_tile_float_snd]
  obtain ⟨hx1, hx2, hx3, hx4⟩ := hx
  obtain ⟨hy1, hy2, hy3, hy4⟩ := hy
  refine ⟨?_, ?_, ?_, ?_⟩
  · -- south ≤ lat
    set Y : ℤ := max 0 (min ((2 : ℤ) ^ zoom - 1)
      (pyInt ((1 - Real.arsinh (Real.tan (radians (latClamp lat))) / Real.pi) /
        2 * 2 ^ zoom))) with hYdef
    have hkey : Real.pi * (1 - 2 * ((Y : ℝ) + 1) / 2 ^ zoom) ≤
        Real.arsinh (Real.tan (radians lat)) := by
      have hs1 : (1 - Real.arsinh (Real.tan (radians lat)) / Real.pi) *
          2 ^ zoom ≤ 2 * ((Y : ℝ) + 1) := by
        have hr : (1 - Real.arsinh (Real.tan (radians lat)) / Real.pi) / 2 *
            2 ^ zoom * 2 =
            (1 - Real.arsinh (Real.tan (radians lat)) / Real.pi) * 2 ^ zoom := by
          ring
        rw [hcl] at hy2
        linarith
      have hs2 : 1 - Real.arsinh (Real.tan (radians lat)) / Real.pi ≤
          2 * ((Y : ℝ) + 1) / 2 ^ zoom := by
        rw [le_div_iff₀ hn0]
        exact hs1
      have hs3 : 1 - 2 * ((Y : ℝ) + 1) / 2 ^ zoom ≤
          Real.arsinh (Real.tan (radians lat)) / Real.pi := by
        linarith
      have hs4 := mul_le_mul_of_nonneg_left hs3 hpi.le
      have hs5 : Real.pi * (Real.arsinh (Real.tan (radians lat)) / Real.pi) =
          Real.arsinh (Real.tan (radians lat)) := by
        field_simp
      linarith
    have hsinh : Real.sinh (Real.pi * (1 - 2 * ((Y : ℝ) + 1) / 2 ^ zoom)) ≤
        Real.tan (radians lat) := by
      have h := Real.sinh_le_sinh.mpr hkey
      rwa [hsA] at h
    have harct : Real.arctan (Real.sinh
        (Real.pi * (1 - 2 * ((Y : ℝ) + 1) / 2 ^ zoom))) ≤ radians lat := by
      have h := Real.arctan_strictMono.monotone hsinh
      rwa [Real.arctan_tan hθmem.1 hθmem.2] at h
    have h := degrees_mono harct
    rwa [degrees_radians] at h
  · -- lat ≤ north
    set Y : ℤ := max 0 (min ((2 : ℤ) ^ zoom - 1)
      (pyInt ((1 - Real.arsinh (Real.tan (radians (latClamp lat))) / Real.pi) /
        2 * 2 ^ zoom))) with hYdef
    have hkey : Real.arsinh (Real.tan (radians lat)) ≤
        Real.pi * (1 - 2 * (Y : ℝ) / 2 ^ zoom) := by
      have hs1 : 2 * (Y : ℝ) ≤
          (1 - Real.arsinh (Real.tan (radians lat)) / Real.pi) * 2 ^ zoom := by
        have hr : (1 - Real.arsinh (Real.tan (radians lat)) / Real.pi) / 2 *
            2 ^ zoom * 2 =
            (1 - Real.arsinh (Real.tan (radians lat)) / Real.pi) * 2 ^ zoom := by
          ring
        rw [hcl] at hy1
        linarith
      have hs2 : 2 * (Y : ℝ) / 2 ^ zoom ≤
          1 - Real.arsinh (Real.tan (radians lat)) / Real.pi := by
        rw [div_le_iff₀ hn0]
        exact hs1
      have hs3 : Real.arsinh (Real.tan (radians lat)) / Real.pi ≤
          1 - 2 * (Y : ℝ) / 2 ^ zoom := by
        linarith
      have hs4 := mul_le_mul_of_nonneg_left hs3 hpi.le
      have hs5 : Real.pi * (Real.arsinh (Real.tan (radians lat)) / Real.pi) =
          Real.arsinh (Real.tan (radians lat)) := by
        field_simp
      linarith
    have hsinh : Real.tan (radians lat) ≤
        Real.sinh (Real.pi * (1 - 2 * (Y : ℝ) / 2 ^ zoom)) := by
      have h := Real.sinh_le_sinh.mpr hkey
      rwa [hsA] at h
    have harct : radians lat ≤ Real.arctan (Real.sinh
        (Real.pi * (1 - 2 * (Y : ℝ) / 2 ^ zoom))) := by
      have h := Real.arctan_strictMono.monotone hsinh
      rwa [Real.arctan_tan hθmem.1 hθmem.2] at h
    have h := degrees_mono harct
    rwa [degrees_radians] at h
  · -- west ≤ lng
    set X : ℤ := max 0 (min ((2 : ℤ) ^ zoom - 1)
      (pyInt ((lng + 180) / 360 * 2 ^ zoom))) with hXdef
    have hr : (lng + 180) / 360 * 2 ^ zoom * 360 = (lng + 180) * 2 ^ zoom := by
      ring
    have hs1 : (X : ℝ) * 360 ≤ (lng + 180) * 2 ^ zoom := by linarith
    rw [sub_le_iff_le_add, div_mul_eq_mul_div, div_le_iff₀ hn0]
    linarith
  · -- lng ≤ east
    set X : ℤ := max 0 (min ((2 : ℤ) ^ zoom - 1)
      (pyInt ((lng + 180) / 360 * 2 ^ zoom))) with hXdef
    have hr : (lng + 180) / 360 * 2 ^ zoom * 360 = (lng + 180) * 2 ^ zoom := by
      ring
    have hs1 : (lng + 180) * 2 ^ zoom ≤ ((X : ℝ) + 1) * 360 := by linarith
    rw [le_sub_iff_add_le, div_mul_eq_mul_div, le_div_iff₀ hn0]
    linarith

theorem tile_roundtrip_contains_witness :
    (tile_to_latlng (latlng_to_tile 0 0 0).1 (latlng_to_tile 0 0 0).2 0).south ≤ 0 ∧
    0 ≤ (tile_to_latlng (latlng_to_tile 0 0 0).1 (latlng_to_tile 0 0 0).2 0).north ∧
    (tile_to_latlng (latlng_to_tile 0 0 0).1 (latlng_to_tile 0 0 0).2 0).west ≤ 0 ∧
    0 ≤ (tile_to_latlng (latlng_to_tile 0 0 0).1 (latlng_to_tile 0 0 0).2 0).east :=
  tile_roundtrip_contains 0 0 0
    (by norm_num)
    (by
      have h1 : radians 0 = 0 := by unfold radians; ring
      rw [h1, abs_zero]
      have hs : (0 : ℝ) ≤ Real.sinh Real.pi := by
        rw [← Real.sinh_zero]
        exact Real.sinh_le_sinh.mpr Real.pi_pos.le
      have h2 := Real.arctan_strictMono.monotone hs
      rwa [Real.arctan_zero] at h2)
    (by norm_num)

theorem degrees_strictMono {a b : ℝ} (h : a < b) : degrees a < degrees b := by
  unfold degrees
  exact (div_lt_div_iff_of_pos_right Real.pi_pos).mpr (by linarith)

set_option maxHeartbeats 4000000 in
theorem sin_cos_deltau_bounds :
    (86266738330688695260315913273163204571395597 / 1000000000000000000000000000000000000000000000 : ℝ) ≤ Real.sin (8637409704618865246452655463 / 100000000000000000000000000000 : ℝ) ∧
    Real.sin (8637409704618865246452655463 / 100000000000000000000000000000 : ℝ) ≤ (43133369165347051021678199254438845110887503 / 500000000000000000000000000000000000000000000 : ℝ) ∧
    (498136038110520456527764477327320923398219771 / 500000000000000000000000000000000000000000000 : ℝ) ≤ Real.cos (8637409704618865246452655463 / 100000000000000000000000000000 : ℝ) ∧
    Real.cos (8637409704618865246452655463 / 100000000000000000000000000000 : ℝ) ≤ (7970176609768331035855018141180226794793707 / 8000000000000000000000000000000000000000000 : ℝ) := by
  have ht0n : (0 : ℝ) ≤ (8637409704618865246452655463 / 102400000000000000000000000000000 : ℝ) := by norm_num
  have ht0 : |(8637409704618865246452655463 / 102400000000000000000000000000000 : ℝ)| ≤ 1 := by
    rw [abs_of_nonneg ht0n]
    norm_num
  have hsb := Real.sin_bound ht0
  have hcb := Real.cos_bound ht0
  rw [abs_of_nonneg ht0n] at hsb hcb
  have hs0l : (16869940809328613945550638844439799171251 / 200000000000000000000000000000000000000000000 : ℝ) ≤ Real.sin (8637409704618865246452655463 / 102400000000000000000000000000000 : ℝ) := by
    have h := (abs_le.mp hsb).1
    have hq : (16869940809328613945550638844439799171251 / 200000000000000000000000000000000000000000000 : ℝ) ≤ ((8637409704618865246452655463 / 102400000000000000000000000000000 : ℝ) - (8637409704618865246452655463 / 102400000000000000000000000000000 : ℝ) ^ 3 / 6) - (8637409704618865246452655463 / 102400000000000000000000000000000 : ℝ) ^ 4 * (5 / 96) := by norm_num
    linarith
  have hs0h : Real.sin (8637409704618865246452655463 / 102400000000000000000000000000000 : ℝ) ≤ (8434970404664834279149972294560758583517 / 100000000000000000000000000000000000000000000 : ℝ) := by
    have h := (abs_le.mp hsb).2
    have hq : ((8637409704618865246452655463 / 102400000000000000000000000000000 : ℝ) - (8637409704618865246452655463 / 102400000000000000000000000000000 : ℝ) ^ 3 / 6) + (8637409704618865246452655463 / 102400000000000000000000000000000 : ℝ) ^ 4 * (5 / 96) ≤ (8434970404664834279149972294560758583517 / 100000000000000000000000000000000000000000000 : ℝ) := by norm_num
    linarith
  have hc0l : (499999998221281851274103310166810591042208929 / 500000000000000000000000000000000000000000000 : ℝ) ≤ Real.cos (8637409704618865246452655463 / 102400000000000000000000000000000 : ℝ) := by
    have h := (abs_le.mp hcb).1
    have hq : (499999998221281851274103310166810591042208929 / 500000000000000000000000000000000000000000000 : ℝ) ≤ (1 - (8637409704618865246452655463 / 102400000000000000000000000000000 : ℝ) ^ 2 / 2) - (8637409704618865246452655463 / 102400000000000000000000000000000 : ℝ) ^ 4 * (5 / 96) := by norm_num
    linarith
  have hc0h : Real.cos (8637409704618865246452655463 / 102400000000000000000000000000000 : ℝ) ≤ (999999996442563707821270366862344590674396773 / 1000000000000000000000000000000000000000000000 : ℝ) := by
    have h := (abs_le.mp hcb).2
    have hq : (1 - (8637409704618865246452655463 / 102400000000000000000000000000000 : ℝ) ^ 2 / 2) + (8637409704618865246452655463 / 102400000000000000000000000000000 : ℝ) ^ 4 * (5 / 96) ≤ (999999996442563707821270366862344590674396773 / 1000000000000000000000000000000000000000000000 : ℝ) := by norm_num
    linarith
  have he1 : (8637409704618865246452655463 / 51200000000000000000000000000000 : ℝ) = 2 * (8637409704618865246452655463 / 102400000000000000000000000000000 : ℝ) := by norm_num
  have hs1l : (21087425936643592718227179776024043079787 / 125000000000000000000000000000000000000000000 : ℝ) ≤ Real.sin (8637409704618865246452655463 / 51200000000000000000000000000000 : ℝ) := by
    rw [he1, Real.sin_two_mul]
    have hp : (16869940809328613945550638844439799171251 / 200000000000000000000000000000000000000000000 : ℝ) * (499999998221281851274103310166810591042208929 / 500000000000000000000000000000000000000000000 : ℝ) ≤ Real.sin (8637409704618865246452655463 / 102400000000000000000000000000000 : ℝ) * Real.cos (8637409704618865246452655463 / 102400000000000000000000000000000 : ℝ) :=
      mul_le_mul hs0l hc0l (by norm_num) (le_trans (by norm_num) hs0l)
    have hq : (21087425936643592718227179776024043079787 / 125000000000000000000000000000000000000000000 : ℝ) ≤ 2 * ((16869940809328613945550638844439799171251 / 200000000000000000000000000000000000000000000 : ℝ) * (499999998221281851274103310166810591042208929 / 500000000000000000000000000000000000000000000 : ℝ)) := by norm_num
    linarith
  have hs1h : Real.sin (8637409704618865246452655463 / 51200000000000000000000000000000 : ℝ) ≤ (84349703746579644381417855677942616096303 / 500000000000000000000000000000000000000000000 : ℝ) := by
    rw [he1, Real.sin_two_mul]
    have hp : Real.sin (8637409704618865246452655463 / 102400000000000000000000000000000 : ℝ) * Real.cos (8637409704618865246452655463 / 102400000000000000000000000000000 : ℝ) ≤ (8434970404664834279149972294560758583517 / 100000000000000000000000000000000000000000000 : ℝ) * (999999996442563707821270366862344590674396773 / 1000000000000000000000000000000000000000000000 : ℝ) :=
      mul_le_mul hs0h hc0h (le_trans (by norm_num) hc0l) (by norm_num)
    have hq : 2 * ((8434970404664834279149972294560758583517 / 100000000000000000000000000000000000000000000 : ℝ) * (999999996442563707821270366862344590674396773 / 1000000000000000000000000000000000000000000000 : ℝ)) ≤ (84349703746579644381417855677942616096303 / 500000000000000000000000000000000000000000000 : ℝ) := by norm_num
    linarith
  have hc1l : (99999998577025485448567236943372284343743981 / 100000000000000000000000000000000000000000000 : ℝ) ≤ Real.cos (8637409704618865246452655463 / 51200000000000000000000000000000 : ℝ) := by
    rw [he1, Real.cos_two_mul']
    have hpy := Real.sin_sq_add_cos_sq (8637409704618865246452655463 / 102400000000000000000000000000000 : ℝ)
    have hs2 : Real.sin (8637409704618865246452655463 / 102400000000000000000000000000000 : ℝ) ^ 2 ≤ (8434970404664834279149972294560758583517 / 100000000000000000000000000000000000000000000 : ℝ) ^ 2 :=
      pow_le_pow_left₀ (le_trans (by norm_num) hs0l) hs0h 2
    have hq : (99999998577025485448567236943372284343743981 / 100000000000000000000000000000000000000000000 : ℝ) ≤ 1 - 2 * (8434970404664834279149972294560758583517 / 100000000000000000000000000000000000000000000 : ℝ) ^ 2 := by norm_num
    linarith
  have hc1h : Real.cos (8637409704618865246452655463 / 51200000000000000000000000000000 : ℝ) ≤ (999999985770254854487451494899478021955925011 / 1000000000000000000000000000000000000000000000 : ℝ) := by
    rw [he1, Real.cos_two_mul']
    have hpy := Real.sin_sq_add_cos_sq (8637409704618865246452655463 / 102400000000000000000000000000000 : ℝ)
    have hs2 : (16869940809328613945550638844439799171251 / 200000000000000000000000000000000000000000000 : ℝ) ^ 2 ≤ Real.sin (8637409704618865246452655463 / 102400000000000000000000000000000 : ℝ) ^ 2 :=
      pow_le_pow_left₀ (by norm_num) hs0l 2
    have hq : 1 - 2 * (16869940809328613945550638844439799171251 / 200000000000000000000000000000000000000000000 : ℝ) ^ 2 ≤ (999999985770254854487451494899478021955925011 / 1000000000000000000000000000000000000000000000 : ℝ) := by norm_num
    linarith
  have he2 : (8637409704618865246452655463 / 25600000000000000000000000000000 : ℝ) = 2 * (8637409704618865246452655463 / 51200000000000000000000000000000 : ℝ) := by norm_num
  have hs2l : (42174851273149791729760185763475443717579 / 125000000000000000000000000000000000000000000 : ℝ) ≤ Real.sin (8637409704618865246452655463 / 25600000000000000000000000000000 : ℝ) := by
    rw [he2, Real.sin_two_mul]
    have hp : (21087425936643592718227179776024043079787 / 125000000000000000000000000000000000000000000 : ℝ) * (99999998577025485448567236943372284343743981 / 100000000000000000000000000000000000000000000 : ℝ) ≤ Real.sin (8637409704618865246452655463 / 51200000000000000000000000000000 : ℝ) * Real.cos (8637409704618865246452655463 / 51200000000000000000000000000000 : ℝ) :=
      mul_le_mul hs1l hc1l (by norm_num) (le_trans (by norm_num) hs1l)
    have hq : (42174851273149791729760185763475443717579 / 125000000000000000000000000000000000000000000 : ℝ) ≤ 2 * ((21087425936643592718227179776024043079787 / 125000000000000000000000000000000000000000000 : ℝ) * (99999998577025485448567236943372284343743981 / 100000000000000000000000000000000000000000000 : ℝ)) := by norm_num
    linarith
  have hs2h : Real.sin (8637409704618865246452655463 / 25600000000000000000000000000000 : ℝ) ≤ (337398810185219427872418144498616245550493 / 1000000000000000000000000000000000000000000000 : ℝ) := by
    rw [he2, Real.sin_two_mul]
    have hp : Real.sin (8637409704618865246452655463 / 51200000000000000000000000000000 : ℝ) * Real.cos (8637409704618865246452655463 / 51200000000000000000000000000000 : ℝ) ≤ (84349703746579644381417855677942616096303 / 500000000000000000000000000000000000000000000 : ℝ) * (999999985770254854487451494899478021955925011 / 1000000000000000000000000000000000000000000000 : ℝ) :=
      mul_le_mul hs1h hc1h (le_trans (by norm_num) hc1l) (by norm_num)
    have hq : 2 * ((84349703746579644381417855677942616096303 / 500000000000000000000000000000000000000000000 : ℝ) * (999999985770254854487451494899478021955925011 / 1000000000000000000000000000000000000000000000 : ℝ)) ≤ (337398810185219427872418144498616245550493 / 1000000000000000000000000000000000000000000000 : ℝ) := by norm_num
    linarith
  have hc2l : (999999943081019822913983230259239237224027219 / 1000000000000000000000000000000000000000000000 : ℝ) ≤ Real.cos (8637409704618865246452655463 / 25600000000000000000000000000000 : ℝ) := by
    rw [he2, Real.cos_two_mul']
    have hpy := Real.sin_sq_add_cos_sq (8637409704618865246452655463 / 51200000000000000000000000000000 : ℝ)
    have hs2 : Real.sin (8637409704618865246452655463 / 51200000000000000000000000000000 : ℝ) ^ 2 ≤ (84349703746579644381417855677942616096303 / 500000000000000000000000000000000000000000000 : ℝ) ^ 2 :=
      pow_le_pow_left₀ (le_trans (by norm_num) hs1l) hs1h 2
    have hq : (999999943081019822913983230259239237224027219 / 1000000000000000000000000000000000000000000000 : ℝ) ≤ 1 - 2 * (84349703746579644381417855677942616096303 / 500000000000000000000000000000000000000000000 : ℝ) ^ 2 := by norm_num
    linarith
  have hc2h : Real.cos (8637409704618865246452655463 / 25600000000000000000000000000000 : ℝ) ≤ (199999988616203964584220066469290161021869977 / 200000000000000000000000000000000000000000000 : ℝ) := by
    rw [he2, Real.cos_two_mul']
    have hpy := Real.sin_sq_add_cos_sq (8637409704618865246452655463 / 51200000000000000000000000000000 : ℝ)
    have hs2 : (21087425936643592718227179776024043079787 / 125000000000000000000000000000000000000000000 : ℝ) ^ 2 ≤ Real.sin (8637409704618865246452655463 / 51200000000000000000000000000000 : ℝ) ^ 2 :=
      pow_le_pow_left₀ (by norm_num) hs1l 2
    have hq : 1 - 2 * (21087425936643592718227179776024043079787 / 125000000000000000000000000000000000000000000 : ℝ) ^ 2 ≤ (199999988616203964584220066469290161021869977 / 200000000000000000000000000000000000000000000 : ℝ) := by norm_num
    linarith
  have he3 : (8637409704618865246452655463 / 12800000000000000000000000000000 : ℝ) = 2 * (8637409704618865246452655463 / 25600000000000000000000000000000 : ℝ) := by norm_num
  have hs3l : (134959516392320858053747947119243304786573 / 200000000000000000000000000000000000000000000 : ℝ) ≤ Real.sin (8637409704618865246452655463 / 12800000000000000000000000000000 : ℝ) := by
    rw [he3, Real.sin_two_mul]
    have hp : (42174851273149791729760185763475443717579 / 125000000000000000000000000000000000000000000 : ℝ) * (999999943081019822913983230259239237224027219 / 1000000000000000000000000000000000000000000000 : ℝ) ≤ Real.sin (8637409704618865246452655463 / 25600000000000000000000000000000 : ℝ) * Real.cos (8637409704618865246452655463 / 25600000000000000000000000000000 : ℝ) :=
      mul_le_mul hs2l hc2l (by norm_num) (le_trans (by norm_num) hs2l)
    have hq : (134959516392320858053747947119243304786573 / 200000000000000000000000000000000000000000000 : ℝ) ≤ 2 * ((42174851273149791729760185763475443717579 / 125000000000000000000000000000000000000000000 : ℝ) * (999999943081019822913983230259239237224027219 / 1000000000000000000000000000000000000000000000 : ℝ)) := by norm_num
    linarith
  have hs3h : Real.sin (8637409704618865246452655463 / 12800000000000000000000000000000 : ℝ) ≤ (84349697745205809792476794260712462960989 / 125000000000000000000000000000000000000000000 : ℝ) := by
    rw [he3, Real.sin_two_mul]
    have hp : Real.sin (8637409704618865246452655463 / 25600000000000000000000000000000 : ℝ) * Real.cos (8637409704618865246452655463 / 25600000000000000000000000000000 : ℝ) ≤ (337398810185219427872418144498616245550493 / 1000000000000000000000000000000000000000000000 : ℝ) * (199999988616203964584220066469290161021869977 / 200000000000000000000000000000000000000000000 : ℝ) :=
      mul_le_mul hs2h hc2h (le_trans (by norm_num) hc2l) (by norm_num)
    have hq : 2 * ((337398810185219427872418144498616245550493 / 1000000000000000000000000000000000000000000000 : ℝ) * (199999988616203964584220066469290161021869977 / 200000000000000000000000000000000000000000000 : ℝ)) ≤ (84349697745205809792476794260712462960989 / 125000000000000000000000000000000000000000000 : ℝ) := by norm_num
    linarith
  have hc3l : (499999886162042885598270859624335986131756791 / 500000000000000000000000000000000000000000000 : ℝ) ≤ Real.cos (8637409704618865246452655463 / 12800000000000000000000000000000 : ℝ) := by
    rw [he3, Real.cos_two_mul']
    have hpy := Real.sin_sq_add_cos_sq (8637409704618865246452655463 / 25600000000000000000000000000000 : ℝ)
    have hs2 : Real.sin (8637409704618865246452655463 / 25600000000000000000000000000000 : ℝ) ^ 2 ≤ (337398810185219427872418144498616245550493 / 1000000000000000000000000000000000000000000000 : ℝ) ^ 2 :=
      pow_le_pow_left₀ (le_trans (by norm_num) hs2l) hs2h 2
    have hq : (499999886162042885598270859624335986131756791 / 500000000000000000000000000000000000000000000 : ℝ) ≤ 1 - 2 * (337398810185219427872418144498616245550493 / 1000000000000000000000000000000000000000000000 : ℝ) ^ 2 := by norm_num
    linarith
  have hc3h : Real.cos (8637409704618865246452655463 / 12800000000000000000000000000000 : ℝ) ≤ (999999772324085771225010127597449903979246429 / 1000000000000000000000000000000000000000000000 : ℝ) := by
    rw [he3, Real.cos_two_mul']
    have hpy := Real.sin_sq_add_cos_sq (8637409704618865246452655463 / 25600000000000000000000000000000 : ℝ)
    have hs2 : (42174851273149791729760185763475443717579 / 125000000000000000000000000000000000000000000 : ℝ) ^ 2 ≤ Real.sin (8637409704618865246452655463 / 25600000000000000000000000000000 : ℝ) ^ 2 :=
      pow_le_pow_left₀ (by norm_num) hs2l 2
    have hq : 1 - 2 * (42174851273149791729760185763475443717579 / 125000000000000000000000000000000000000000000 : ℝ) ^ 2 ≤ (999999772324085771225010127597449903979246429 / 1000000000000000000000000000000000000000000000 : ℝ) := by norm_num
    linarith
  have he4 : (8637409704618865246452655463 / 6400000000000000000000000000000 : ℝ) = 2 * (8637409704618865246452655463 / 12800000000000000000000000000000 : ℝ) := by norm_num
  have hs4l : (1349594856652895795549099300071578934393537 / 1000000000000000000000000000000000000000000000 : ℝ) ≤ Real.sin (8637409704618865246452655463 / 6400000000000000000000000000000 : ℝ) := by
    rw [he4, Real.sin_two_mul]
    have hp : (134959516392320858053747947119243304786573 / 200000000000000000000000000000000000000000000 : ℝ) * (499999886162042885598270859624335986131756791 / 500000000000000000000000000000000000000000000 : ℝ) ≤ Real.sin (8637409704618865246452655463 / 12800000000000000000000000000000 : ℝ) * Real.cos (8637409704618865246452655463 / 12800000000000000000000000000000 : ℝ) :=
      mul_le_mul hs3l hc3l (by norm_num) (le_trans (by norm_num) hs3l)
    have hq : (1349594856652895795549099300071578934393537 / 1000000000000000000000000000000000000000000000 : ℝ) ≤ 2 * ((134959516392320858053747947119243304786573 / 200000000000000000000000000000000000000000000 : ℝ) * (499999886162042885598270859624335986131756791 / 500000000000000000000000000000000000000000000 : ℝ)) := by norm_num
    linarith
  have hs4h : Real.sin (8637409704618865246452655463 / 6400000000000000000000000000000 : ℝ) ≤ (1349594856652980171710458947979722481715737 / 1000000000000000000000000000000000000000000000 : ℝ) := by
    rw [he4, Real.sin_two_mul]
    have hp : Real.sin (8637409704618865246452655463 / 12800000000000000000000000000000 : ℝ) * Real.cos (8637409704618865246452655463 / 12800000000000000000000000000000 : ℝ) ≤ (84349697745205809792476794260712462960989 / 125000000000000000000000000000000000000000000 : ℝ) * (999999772324085771225010127597449903979246429 / 1000000000000000000000000000000000000000000000 : ℝ) :=
      mul_le_mul hs3h hc3h (le_trans (by norm_num) hc3l) (by norm_num)
    have hq : 2 * ((84349697745205809792476794260712462960989 / 125000000000000000000000000000000000000000000 : ℝ) * (999999772324085771225010127597449903979246429 / 1000000000000000000000000000000000000000000000 : ℝ)) ≤ (1349594856652980171710458947979722481715737 / 1000000000000000000000000000000000000000000000 : ℝ) := by norm_num
    linarith
  have hc4l : (999999089296446757430006706969612888835417683 / 1000000000000000000000000000000000000000000000 : ℝ) ≤ Real.cos (8637409704618865246452655463 / 6400000000000000000000000000000 : ℝ) := by
    rw [he4, Real.cos_two_mul']
    have hpy := Real.sin_sq_add_cos_sq (8637409704618865246452655463 / 12800000000000000000000000000000 : ℝ)
    have hs2 : Real.sin (8637409704618865246452655463 / 12800000000000000000000000000000 : ℝ) ^ 2 ≤ (84349697745205809792476794260712462960989 / 125000000000000000000000000000000000000000000 : ℝ) ^ 2 :=
      pow_le_pow_left₀ (le_trans (by norm_num) hs3l) hs3h 2
    have hq : (999999089296446757430006706969612888835417683 / 1000000000000000000000000000000000000000000000 : ℝ) ≤ 1 - 2 * (84349697745205809792476794260712462960989 / 125000000000000000000000000000000000000000000 : ℝ) ^ 2 := by norm_num
    linarith
  have hc4h : Real.cos (8637409704618865246452655463 / 6400000000000000000000000000000 : ℝ) ≤ (249999772324111689385970085091180969470164219 / 250000000000000000000000000000000000000000000 : ℝ) := by
    rw [he4, Real.cos_two_mul']
    have hpy := Real.sin_sq_add_cos_sq (8637409704618865246452655463 / 12800000000000000000000000000000 : ℝ)
    have hs2 : (134959516392320858053747947119243304786573 / 200000000000000000000000000000000000000000000 : ℝ) ^ 2 ≤ Real.sin (8637409704618865246452655463 / 12800000000000000000000000000000 : ℝ) ^ 2 :=
      pow_le_pow_left₀ (by norm_num) hs3l 2
    have hq : 1 - 2 * (134959516392320858053747947119243304786573 / 200000000000000000000000000000000000000000000 : ℝ) ^ 2 ≤ (249999772324111689385970085091180969470164219 / 250000000000000000000000000000000000000000000 : ℝ) := by norm_num
    linarith
  have he5 : (8637409704618865246452655463 / 3200000000000000000000000000000 : ℝ) = 2 * (8637409704618865246452655463 / 6400000000000000000000000000000 : ℝ) := by norm_num
  have hs5l : (2699187255144128807719990456288041130168541 / 1000000000000000000000000000000000000000000000 : ℝ) ≤ Real.sin (8637409704618865246452655463 / 3200000000000000000000000000000 : ℝ) := by
    rw [he5, Real.sin_two_mul]
    have hp : (1349594856652895795549099300071578934393537 / 1000000000000000000000000000000000000000000000 : ℝ) * (999999089296446757430006706969612888835417683 / 1000000000000000000000000000000000000000000000 : ℝ) ≤ Real.sin (8637409704618865246452655463 / 6400000000000000000000000000000 : ℝ) * Real.cos (8637409704618865246452655463 / 6400000000000000000000000000000 : ℝ) :=
      mul_le_mul hs4l hc4l (by norm_num) (le_trans (by norm_num) hs4l)
    have hq : (2699187255144128807719990456288041130168541 / 1000000000000000000000000000000000000000000000 : ℝ) ≤ 2 * ((1349594856652895795549099300071578934393537 / 1000000000000000000000000000000000000000000000 : ℝ) * (999999089296446757430006706969612888835417683 / 1000000000000000000000000000000000000000000000 : ℝ)) := by norm_num
    linarith
  have hs5h : Real.sin (8637409704618865246452655463 / 3200000000000000000000000000000 : ℝ) ≤ (168699203446518597512274559503924144723523 / 62500000000000000000000000000000000000000000 : ℝ) := by
    rw [he5, Real.sin_two_mul]
    have hp : Real.sin (8637409704618865246452655463 / 6400000000000000000000000000000 : ℝ) * Real.cos (8637409704618865246452655463 / 6400000000000000000000000000000 : ℝ) ≤ (1349594856652980171710458947979722481715737 / 1000000000000000000000000000000000000000000000 : ℝ) * (249999772324111689385970085091180969470164219 / 250000000000000000000000000000000000000000000 : ℝ) :=
      mul_le_mul hs4h hc4h (le_trans (by norm_num) hc4l) (by norm_num)
    have hq : 2 * ((1349594856652980171710458947979722481715737 / 1000000000000000000000000000000000000000000000 : ℝ) * (249999772324111689385970085091180969470164219 / 250000000000000000000000000000000000000000000 : ℝ)) ≤ (168699203446518597512274559503924144723523 / 62500000000000000000000000000000000000000000 : ℝ) := by norm_num
    linarith
  have hc5l : (62499772324215361977737744094082520971180069 / 62500000000000000000000000000000000000000000 : ℝ) ≤ Real.cos (8637409704618865246452655463 / 3200000000000000000000000000000 : ℝ) := by
    rw [he5, Real.cos_two_mul']
    have hpy := Real.sin_sq_add_cos_sq (8637409704618865246452655463 / 6400000000000000000000000000000 : ℝ)
    have hs2 : Real.sin (8637409704618865246452655463 / 6400000000000000000000000000000 : ℝ) ^ 2 ≤ (1349594856652980171710458947979722481715737 / 1000000000000000000000000000000000000000000000 : ℝ) ^ 2 :=
      pow_le_pow_left₀ (le_trans (by norm_num) hs4l) hs4h 2
    have hq : (62499772324215361977737744094082520971180069 / 62500000000000000000000000000000000000000000 : ℝ) ≤ 1 - 2 * (1349594856652980171710458947979722481715737 / 1000000000000000000000000000000000000000000000 : ℝ) ^ 2 := by norm_num
    linarith
  have hc5h : Real.cos (8637409704618865246452655463 / 3200000000000000000000000000000 : ℝ) ≤ (999996357187445792099298439085717069404006559 / 1000000000000000000000000000000000000000000000 : ℝ) := by
    rw [he5, Real.cos_two_mul']
    have hpy := Real.sin_sq_add_cos_sq (8637409704618865246452655463 / 6400000000000000000000000000000 : ℝ)
    have hs2 : (1349594856652895795549099300071578934393537 / 1000000000000000000000000000000000000000000000 : ℝ) ^ 2 ≤ Real.sin (8637409704618865246452655463 / 6400000000000000000000000000000 : ℝ) ^ 2 :=
      pow_le_pow_left₀ (by norm_num) hs4l 2
    have hq : 1 - 2 * (1349594856652895795549099300071578934393537 / 1000000000000000000000000000000000000000000000 : ℝ) ^ 2 ≤ (999996357187445792099298439085717069404006559 / 1000000000000000000000000000000000000000000000 : ℝ) := by norm_num
    linarith
  have he6 : (8637409704618865246452655463 / 1600000000000000000000000000000 : ℝ) = 2 * (8637409704618865246452655463 / 3200000000000000000000000000000 : ℝ) := by norm_num
  have hs6l : (2699177422510909609494101272283745064110893 / 500000000000000000000000000000000000000000000 : ℝ) ≤ Real.sin (8637409704618865246452655463 / 1600000000000000000000000000000 : ℝ) := by
    rw [he6, Real.sin_two_mul]
    have hp : (2699187255144128807719990456288041130168541 / 1000000000000000000000000000000000000000000000 : ℝ) * (62499772324215361977737744094082520971180069 / 62500000000000000000000000000000000000000000 : ℝ) ≤ Real.sin (8637409704618865246452655463 / 3200000000000000000000000000000 : ℝ) * Real.cos (8637409704618865246452655463 / 3200000000000000000000000000000 : ℝ) :=
      mul_le_mul hs5l hc5l (by norm_num) (le_trans (by norm_num) hs5l)
    have hq : (2699177422510909609494101272283745064110893 / 500000000000000000000000000000000000000000000 : ℝ) ≤ 2 * ((2699187255144128807719990456288041130168541 / 1000000000000000000000000000000000000000000000 : ℝ) * (62499772324215361977737744094082520971180069 / 62500000000000000000000000000000000000000000 : ℝ)) := by norm_num
    linarith
  have hs6h : Real.sin (8637409704618865246452655463 / 1600000000000000000000000000000 : ℝ) ≤ (5398354845022156725170470336587664784102143 / 1000000000000000000000000000000000000000000000 : ℝ) := by
    rw [he6, Real.sin_two_mul]
    have hp : Real.sin (8637409704618865246452655463 / 3200000000000000000000000000000 : ℝ) * Real.cos (8637409704618865246452655463 / 3200000000000000000000000000000 : ℝ) ≤ (168699203446518597512274559503924144723523 / 62500000000000000000000000000000000000000000 : ℝ) * (999996357187445792099298439085717069404006559 / 1000000000000000000000000000000000000000000000 : ℝ) :=
      mul_le_mul hs5h hc5h (le_trans (by norm_num) hc5l) (by norm_num)
    have hq : 2 * ((168699203446518597512274559503924144723523 / 62500000000000000000000000000000000000000000 : ℝ) * (999996357187445792099298439085717069404006559 / 1000000000000000000000000000000000000000000000 : ℝ)) ≤ (5398354845022156725170470336587664784102143 / 1000000000000000000000000000000000000000000000 : ℝ) := by norm_num
    linarith
  have hc6l : (499992714388161666592704159779907761970786809 / 500000000000000000000000000000000000000000000 : ℝ) ≤ Real.cos (8637409704618865246452655463 / 1600000000000000000000000000000 : ℝ) := by
    rw [he6, Real.cos_two_mul']
    have hpy := Real.sin_sq_add_cos_sq (8637409704618865246452655463 / 3200000000000000000000000000000 : ℝ)
    have hs2 : Real.sin (8637409704618865246452655463 / 3200000000000000000000000000000 : ℝ) ^ 2 ≤ (168699203446518597512274559503924144723523 / 62500000000000000000000000000000000000000000 : ℝ) ^ 2 :=
      pow_le_pow_left₀ (le_trans (by norm_num) hs5l) hs5h 2
    have hq : (499992714388161666592704159779907761970786809 / 500000000000000000000000000000000000000000000 : ℝ) ≤ 1 - 2 * (168699203446518597512274559503924144723523 / 62500000000000000000000000000000000000000000 : ℝ) ^ 2 := by norm_num
    linarith
  have hc6h : Real.cos (8637409704618865246452655463 / 1600000000000000000000000000000 : ℝ) ≤ (124998178597040416875923306734797529145891129 / 125000000000000000000000000000000000000000000 : ℝ) := by
    rw [he6, Real.cos_two_mul']
    have hpy := Real.sin_sq_add_cos_sq (8637409704618865246452655463 / 3200000000000000000000000000000 : ℝ)
    have hs2 : (2699187255144128807719990456288041130168541 / 1000000000000000000000000000000000000000000000 : ℝ) ^ 2 ≤ Real.sin (8637409704618865246452655463 / 3200000000000000000000000000000 : ℝ) ^ 2 :=
      pow_le_pow_left₀ (by norm_num) hs5l 2
    have hq : 1 - 2 * (2699187255144128807719990456288041130168541 / 1000000000000000000000000000000000000000000000 : ℝ) ^ 2 ≤ (124998178597040416875923306734797529145891129 / 125000000000000000000000000000000000000000000 : ℝ) := by norm_num
    linarith
  have he7 : (8637409704618865246452655463 / 800000000000000000000000000000 : ℝ) = 2 * (8637409704618865246452655463 / 1600000000000000000000000000000 : ℝ) := by norm_num
  have hs7l : (539827618438588638804348050249147284353627 / 50000000000000000000000000000000000000000000 : ℝ) ≤ Real.sin (8637409704618865246452655463 / 800000000000000000000000000000 : ℝ) := by
    rw [he7, Real.sin_two_mul]
    have hp : (2699177422510909609494101272283745064110893 / 500000000000000000000000000000000000000000000 : ℝ) * (499992714388161666592704159779907761970786809 / 500000000000000000000000000000000000000000000 : ℝ) ≤ Real.sin (8637409704618865246452655463 / 1600000000000000000000000000000 : ℝ) * Real.cos (8637409704618865246452655463 / 1600000000000000000000000000000 : ℝ) :=
      mul_le_mul hs6l hc6l (by norm_num) (le_trans (by norm_num) hs6l)
    have hq : (539827618438588638804348050249147284353627 / 50000000000000000000000000000000000000000000 : ℝ) ≤ 2 * ((2699177422510909609494101272283745064110893 / 500000000000000000000000000000000000000000000 : ℝ) * (499992714388161666592704159779907761970786809 / 500000000000000000000000000000000000000000000 : ℝ)) := by norm_num
    linarith
  have hs7h : Real.sin (8637409704618865246452655463 / 800000000000000000000000000000 : ℝ) ≤ (2699138092193111949571777354676412317983893 / 250000000000000000000000000000000000000000000 : ℝ) := by
    rw [he7, Real.sin_two_mul]
    have hp : Real.sin (8637409704618865246452655463 / 1600000000000000000000000000000 : ℝ) * Real.cos (8637409704618865246452655463 / 1600000000000000000000000000000 : ℝ) ≤ (5398354845022156725170470336587664784102143 / 1000000000000000000000000000000000000000000000 : ℝ) * (124998178597040416875923306734797529145891129 / 125000000000000000000000000000000000000000000 : ℝ) :=
      mul_le_mul hs6h hc6h (le_trans (by norm_num) hc6l) (by norm_num)
    have hq : 2 * ((5398354845022156725170470336587664784102143 / 1000000000000000000000000000000000000000000000 : ℝ) * (124998178597040416875923306734797529145891129 / 125000000000000000000000000000000000000000000 : ℝ)) ≤ (2699138092193111949571777354676412317983893 / 250000000000000000000000000000000000000000000 : ℝ) := by norm_num
    linarith
  have hc7l : (999941715529934451612491305650189272236674493 / 1000000000000000000000000000000000000000000000 : ℝ) ≤ Real.cos (8637409704618865246452655463 / 800000000000000000000000000000 : ℝ) := by
    rw [he7, Real.cos_two_mul']
    have hpy := Real.sin_sq_add_cos_sq (8637409704618865246452655463 / 1600000000000000000000000000000 : ℝ)
    have hs2 : Real.sin (8637409704618865246452655463 / 1600000000000000000000000000000 : ℝ) ^ 2 ≤ (5398354845022156725170470336587664784102143 / 1000000000000000000000000000000000000000000000 : ℝ) ^ 2 :=
      pow_le_pow_left₀ (le_trans (by norm_num) hs6l) hs6h 2
    have hq : (999941715529934451612491305650189272236674493 / 1000000000000000000000000000000000000000000000 : ℝ) ≤ 1 - 2 * (5398354845022156725170470336587664784102143 / 1000000000000000000000000000000000000000000000 : ℝ) ^ 2 := by norm_num
    linarith
  have hc7h : Real.cos (8637409704618865246452655463 / 800000000000000000000000000000 : ℝ) ≤ (62496357220620903681275240170689133533416897 / 62500000000000000000000000000000000000000000 : ℝ) := by
    rw [he7, Real.cos_two_mul']
    have hpy := Real.sin_sq_add_cos_sq (8637409704618865246452655463 / 1600000000000000000000000000000 : ℝ)
    have hs2 : (2699177422510909609494101272283745064110893 / 500000000000000000000000000000000000000000000 : ℝ) ^ 2 ≤ Real.sin (8637409704618865246452655463 / 1600000000000000000000000000000 : ℝ) ^ 2 :=
      pow_le_pow_left₀ (by norm_num) hs6l 2
    have hq : 1 - 2 * (2699177422510909609494101272283745064110893 / 500000000000000000000000000000000000000000000 : ℝ) ^ 2 ≤ (62496357220620903681275240170689133533416897 / 62500000000000000000000000000000000000000000 : ℝ) := by norm_num
    linarith
  have he8 : (8637409704618865246452655463 / 400000000000000000000000000000 : ℝ) = 2 * (8637409704618865246452655463 / 800000000000000000000000000000 : ℝ) := by norm_num
  have hs8l : (10795923097438423972161320183722826746623053 / 500000000000000000000000000000000000000000000 : ℝ) ≤ Real.sin (8637409704618865246452655463 / 400000000000000000000000000000 : ℝ) := by
    rw [he8, Real.sin_two_mul]
    have hp : (539827618438588638804348050249147284353627 / 50000000000000000000000000000000000000000000 : ℝ) * (999941715529934451612491305650189272236674493 / 1000000000000000000000000000000000000000000000 : ℝ) ≤ Real.sin (8637409704618865246452655463 / 800000000000000000000000000000 : ℝ) * Real.cos (8637409704618865246452655463 / 800000000000000000000000000000 : ℝ) :=
      mul_le_mul hs7l hc7l (by norm_num) (le_trans (by norm_num) hs7l)
    have hq : (10795923097438423972161320183722826746623053 / 500000000000000000000000000000000000000000000 : ℝ) ≤ 2 * ((539827618438588638804348050249147284353627 / 50000000000000000000000000000000000000000000 : ℝ) * (999941715529934451612491305650189272236674493 / 1000000000000000000000000000000000000000000000 : ℝ)) := by norm_num
    linarith
  have hs8h : Real.sin (8637409704618865246452655463 / 400000000000000000000000000000 : ℝ) ≤ (10795923097439099033702486744941227458716351 / 500000000000000000000000000000000000000000000 : ℝ) := by
    rw [he8, Real.sin_two_mul]
    have hp : Real.sin (8637409704618865246452655463 / 800000000000000000000000000000 : ℝ) * Real.cos (8637409704618865246452655463 / 800000000000000000000000000000 : ℝ) ≤ (2699138092193111949571777354676412317983893 / 250000000000000000000000000000000000000000000 : ℝ) * (62496357220620903681275240170689133533416897 / 62500000000000000000000000000000000000000000 : ℝ) :=
      mul_le_mul hs7h hc7h (le_trans (by norm_num) hc7l) (by norm_num)
    have hq : 2 * ((2699138092193111949571777354676412317983893 / 250000000000000000000000000000000000000000000 : ℝ) * (62496357220620903681275240170689133533416897 / 62500000000000000000000000000000000000000000 : ℝ)) ≤ (10795923097439099033702486744941227458716351 / 500000000000000000000000000000000000000000000 : ℝ) := by norm_num
    linarith
  have hc8l : (249941717228474177023181948584661059117417801 / 250000000000000000000000000000000000000000000 : ℝ) ≤ Real.cos (8637409704618865246452655463 / 400000000000000000000000000000 : ℝ) := by
    rw [he8, Real.cos_two_mul']
    have hpy := Real.sin_sq_add_cos_sq (8637409704618865246452655463 / 800000000000000000000000000000 : ℝ)
    have hs2 : Real.sin (8637409704618865246452655463 / 800000000000000000000000000000 : ℝ) ^ 2 ≤ (2699138092193111949571777354676412317983893 / 250000000000000000000000000000000000000000000 : ℝ) ^ 2 :=
      pow_le_pow_left₀ (le_trans (by norm_num) hs7l) hs7h 2
    have hq : (249941717228474177023181948584661059117417801 / 250000000000000000000000000000000000000000000 : ℝ) ≤ 1 - 2 * (2699138092193111949571777354676412317983893 / 250000000000000000000000000000000000000000000 : ℝ) ^ 2 := by norm_num
    linarith
  have hc8h : Real.cos (8637409704618865246452655463 / 400000000000000000000000000000 : ℝ) ≤ (499883434456948368622188965141557546461436797 / 500000000000000000000000000000000000000000000 : ℝ) := by
    rw [he8, Real.cos_two_mul']
    have hpy := Real.sin_sq_add_cos_sq (8637409704618865246452655463 / 800000000000000000000000000000 : ℝ)
    have hs2 : (539827618438588638804348050249147284353627 / 50000000000000000000000000000000000000000000 : ℝ) ^ 2 ≤ Real.sin (8637409704618865246452655463 / 800000000000000000000000000000 : ℝ) ^ 2 :=
      pow_le_pow_left₀ (by norm_num) hs7l 2
    have hq : 1 - 2 * (539827618438588638804348050249147284353627 / 50000000000000000000000000000000000000000000 : ℝ) ^ 2 ≤ (499883434456948368622188965141557546461436797 / 500000000000000000000000000000000000000000000 : ℝ) := by norm_num
    linarith
  have he9 : (8637409704618865246452655463 / 200000000000000000000000000000 : ℝ) = 2 * (8637409704618865246452655463 / 400000000000000000000000000000 : ℝ) := by norm_num
  have hs9l : (43173624928644922148300253233469433910035061 / 1000000000000000000000000000000000000000000000 : ℝ) ≤ Real.sin (8637409704618865246452655463 / 200000000000000000000000000000 : ℝ) := by
    rw [he9, Real.sin_two_mul]
    have hp : (10795923097438423972161320183722826746623053 / 500000000000000000000000000000000000000000000 : ℝ) * (249941717228474177023181948584661059117417801 / 250000000000000000000000000000000000000000000 : ℝ) ≤ Real.sin (8637409704618865246452655463 / 400000000000000000000000000000 : ℝ) * Real.cos (8637409704618865246452655463 / 400000000000000000000000000000 : ℝ) :=
      mul_le_mul hs8l hc8l (by norm_num) (le_trans (by norm_num) hs8l)
    have hq : (43173624928644922148300253233469433910035061 / 1000000000000000000000000000000000000000000000 : ℝ) ≤ 2 * ((10795923097438423972161320183722826746623053 / 500000000000000000000000000000000000000000000 : ℝ) * (249941717228474177023181948584661059117417801 / 250000000000000000000000000000000000000000000 : ℝ)) := by norm_num
    linarith
  have hs9h : Real.sin (8637409704618865246452655463 / 200000000000000000000000000000 : ℝ) ≤ (21586812464323811511914745243939611158609733 / 500000000000000000000000000000000000000000000 : ℝ) := by
    rw [he9, Real.sin_two_mul]
    have hp : Real.sin (8637409704618865246452655463 / 400000000000000000000000000000 : ℝ) * Real.cos (8637409704618865246452655463 / 400000000000000000000000000000 : ℝ) ≤ (10795923097439099033702486744941227458716351 / 500000000000000000000000000000000000000000000 : ℝ) * (499883434456948368622188965141557546461436797 / 500000000000000000000000000000000000000000000 : ℝ) :=
      mul_le_mul hs8h hc8h (le_trans (by norm_num) hc8l) (by norm_num)
    have hq : 2 * ((10795923097439099033702486744941227458716351 / 500000000000000000000000000000000000000000000 : ℝ) * (499883434456948368622188965141557546461436797 / 500000000000000000000000000000000000000000000 : ℝ)) ≤ (21586812464323811511914745243939611158609733 / 500000000000000000000000000000000000000000000 : ℝ) := by norm_num
    linarith
  have hc9l : (249766896088948361939582338151773013703103071 / 250000000000000000000000000000000000000000000 : ℝ) ≤ Real.cos (8637409704618865246452655463 / 200000000000000000000000000000 : ℝ) := by
    rw [he9, Real.cos_two_mul']
    have hpy := Real.sin_sq_add_cos_sq (8637409704618865246452655463 / 400000000000000000000000000000 : ℝ)
    have hs2 : Real.sin (8637409704618865246452655463 / 400000000000000000000000000000 : ℝ) ^ 2 ≤ (10795923097439099033702486744941227458716351 / 500000000000000000000000000000000000000000000 : ℝ) ^ 2 :=
      pow_le_pow_left₀ (le_trans (by norm_num) hs8l) hs8h 2
    have hq : (249766896088948361939582338151773013703103071 / 250000000000000000000000000000000000000000000 : ℝ) ≤ 1 - 2 * (10795923097439099033702486744941227458716351 / 500000000000000000000000000000000000000000000 : ℝ) ^ 2 := by norm_num
    linarith
  have hc9h : Real.cos (8637409704618865246452655463 / 200000000000000000000000000000 : ℝ) ≤ (999067584355793564364929104170061625540036453 / 1000000000000000000000000000000000000000000000 : ℝ) := by
    rw [he9, Real.cos_two_mul']
    have hpy := Real.sin_sq_add_cos_sq (8637409704618865246452655463 / 400000000000000000000000000000 : ℝ)
    have hs2 : (10795923097438423972161320183722826746623053 / 500000000000000000000000000000000000000000000 : ℝ) ^ 2 ≤ Real.sin (8637409704618865246452655463 / 400000000000000000000000000000 : ℝ) ^ 2 :=
      pow_le_pow_left₀ (by norm_num) hs8l 2
    have hq : 1 - 2 * (10795923097438423972161320183722826746623053 / 500000000000000000000000000000000000000000000 : ℝ) ^ 2 ≤ (999067584355793564364929104170061625540036453 / 1000000000000000000000000000000000000000000000 : ℝ) := by norm_num
    linarith
  have he10 : (8637409704618865246452655463 / 100000000000000000000000000000 : ℝ) = 2 * (8637409704618865246452655463 / 200000000000000000000000000000 : ℝ) := by norm_num
  have hs10l : (86266738330688695260315913273163204571395597 / 1000000000000000000000000000000000000000000000 : ℝ) ≤ Real.sin (8637409704618865246452655463 / 100000000000000000000000000000 : ℝ) := by
    rw [he10, Real.sin_two_mul]
    have hp : (43173624928644922148300253233469433910035061 / 1000000000000000000000000000000000000000000000 : ℝ) * (249766896088948361939582338151773013703103071 / 250000000000000000000000000000000000000000000 : ℝ) ≤ Real.sin (8637409704618865246452655463 / 200000000000000000000000000000 : ℝ) * Real.cos (8637409704618865246452655463 / 200000000000000000000000000000 : ℝ) :=
      mul_le_mul hs9l hc9l (by norm_num) (le_trans (by norm_num) hs9l)
    have hq : (86266738330688695260315913273163204571395597 / 1000000000000000000000000000000000000000000000 : ℝ) ≤ 2 * ((43173624928644922148300253233469433910035061 / 1000000000000000000000000000000000000000000000 : ℝ) * (249766896088948361939582338151773013703103071 / 250000000000000000000000000000000000000000000 : ℝ)) := by norm_num
    linarith
  have hs10h : Real.sin (8637409704618865246452655463 / 100000000000000000000000000000 : ℝ) ≤ (43133369165347051021678199254438845110887503 / 500000000000000000000000000000000000000000000 : ℝ) := by
    rw [he10, Real.sin_two_mul]
    have hp : Real.sin (8637409704618865246452655463 / 200000000000000000000000000000 : ℝ) * Real.cos (8637409704618865246452655463 / 200000000000000000000000000000 : ℝ) ≤ (21586812464323811511914745243939611158609733 / 500000000000000000000000000000000000000000000 : ℝ) * (999067584355793564364929104170061625540036453 / 1000000000000000000000000000000000000000000000 : ℝ) :=
      mul_le_mul hs9h hc9h (le_trans (by norm_num) hc9l) (by norm_num)
    have hq : 2 * ((21586812464323811511914745243939611158609733 / 500000000000000000000000000000000000000000000 : ℝ) * (999067584355793564364929104170061625540036453 / 1000000000000000000000000000000000000000000000 : ℝ)) ≤ (43133369165347051021678199254438845110887503 / 500000000000000000000000000000000000000000000 : ℝ) := by norm_num
    linarith
  have hc10l : (498136038110520456527764477327320923398219771 / 500000000000000000000000000000000000000000000 : ℝ) ≤ Real.cos (8637409704618865246452655463 / 100000000000000000000000000000 : ℝ) := by
    rw [he10, Real.cos_two_mul']
    have hpy := Real.sin_sq_add_cos_sq (8637409704618865246452655463 / 200000000000000000000000000000 : ℝ)
    have hs2 : Real.sin (8637409704618865246452655463 / 200000000000000000000000000000 : ℝ) ^ 2 ≤ (21586812464323811511914745243939611158609733 / 500000000000000000000000000000000000000000000 : ℝ) ^ 2 :=
      pow_le_pow_left₀ (le_trans (by norm_num) hs9l) hs9h 2
    have hq : (498136038110520456527764477327320923398219771 / 500000000000000000000000000000000000000000000 : ℝ) ≤ 1 - 2 * (21586812464323811511914745243939611158609733 / 500000000000000000000000000000000000000000000 : ℝ) ^ 2 := by norm_num
    linarith
  have hc10h : Real.cos (8637409704618865246452655463 / 100000000000000000000000000000 : ℝ) ≤ (7970176609768331035855018141180226794793707 / 8000000000000000000000000000000000000000000 : ℝ) := by
    rw [he10, Real.cos_two_mul']
    have hpy := Real.sin_sq_add_cos_sq (8637409704618865246452655463 / 200000000000000000000000000000 : ℝ)
    have hs2 : (43173624928644922148300253233469433910035061 / 1000000000000000000000000000000000000000000000 : ℝ) ^ 2 ≤ Real.sin (8637409704618865246452655463 / 200000000000000000000000000000 : ℝ) ^ 2 :=
      pow_le_pow_left₀ (by norm_num) hs9l 2
    have hq : 1 - 2 * (43173624928644922148300253233469433910035061 / 1000000000000000000000000000000000000000000000 : ℝ) ^ 2 ≤ (7970176609768331035855018141180226794793707 / 8000000000000000000000000000000000000000000 : ℝ) := by norm_num
    linarith
  exact ⟨hs10l, hs10h, hc10l, hc10h⟩

set_option maxHeartbeats 4000000 in
theorem exp_piu_upper :
    Real.exp (3.14159265358979323847 : ℝ) ≤ (462813852655585471076982313808797 / 20000000000000000000000000000000 : ℝ) := by
  have h0 : (0 : ℝ) ≤ (314159265358979323847 / 102400000000000000000000 : ℝ) := by norm_num
  have h1 : (314159265358979323847 / 102400000000000000000000 : ℝ) ≤ 1 := by norm_num
  have hb := Real.exp_bound' h0 h1 (by norm_num : 0 < 6)
  have he0 : Real.exp (314159265358979323847 / 102400000000000000000000 : ℝ) ≤ (25076816814659692542025040918809 / 25000000000000000000000000000000 : ℝ) := by
    refine le_trans hb ?_
    simp only [Finset.sum_range_succ, Finset.sum_range_zero]
    norm_num [Nat.factorial]
  have hx1 : (314159265358979323847 / 51200000000000000000000 : ℝ) = (314159265358979323847 / 102400000000000000000000 : ℝ) + (314159265358979323847 / 102400000000000000000000 : ℝ) := by norm_num
  have he1 : Real.exp (314159265358979323847 / 51200000000000000000000 : ℝ) ≤ (50307739324479927092502647175493 / 50000000000000000000000000000000 : ℝ) := by
    rw [hx1, Real.exp_add]
    have hp : Real.exp (314159265358979323847 / 102400000000000000000000 : ℝ) * Real.exp (314159265358979323847 / 102400000000000000000000 : ℝ) ≤ (25076816814659692542025040918809 / 25000000000000000000000000000000 : ℝ) * (25076816814659692542025040918809 / 25000000000000000000000000000000 : ℝ) :=
      mul_le_mul he0 he0 (Real.exp_pos _).le (le_trans (Real.exp_pos _).le he0)
    have hq : (25076816814659692542025040918809 / 25000000000000000000000000000000 : ℝ) * (25076816814659692542025040918809 / 25000000000000000000000000000000 : ℝ) ≤ (50307739324479927092502647175493 / 50000000000000000000000000000000 : ℝ) := by norm_num
    linarith
  have hx2 : (314159265358979323847 / 25600000000000000000000 : ℝ) = (314159265358979323847 / 51200000000000000000000 : ℝ) + (314159265358979323847 / 51200000000000000000000 : ℝ) := by norm_num
  have he2 : Real.exp (314159265358979323847 / 25600000000000000000000 : ℝ) ≤ (101234745437592962844181085911337 / 100000000000000000000000000000000 : ℝ) := by
    rw [hx2, Real.exp_add]
    have hp : Real.exp (314159265358979323847 / 51200000000000000000000 : ℝ) * Real.exp (314159265358979323847 / 51200000000000000000000 : ℝ) ≤ (50307739324479927092502647175493 / 50000000000000000000000000000000 : ℝ) * (50307739324479927092502647175493 / 50000000000000000000000000000000 : ℝ) :=
      mul_le_mul he1 he1 (Real.exp_pos _).le (le_trans (Real.exp_pos _).le he1)
    have hq : (50307739324479927092502647175493 / 50000000000000000000000000000000 : ℝ) * (50307739324479927092502647175493 / 50000000000000000000000000000000 : ℝ) ≤ (101234745437592962844181085911337 / 100000000000000000000000000000000 : ℝ) := by norm_num
    linarith
  have hx3 : (314159265358979323847 / 12800000000000000000000 : ℝ) = (314159265358979323847 / 25600000000000000000000 : ℝ) + (314159265358979323847 / 25600000000000000000000 : ℝ) := by norm_num
  have he3 : Real.exp (314159265358979323847 / 12800000000000000000000 : ℝ) ≤ (20496947367628498412275790125727 / 20000000000000000000000000000000 : ℝ) := by
    rw [hx3, Real.exp_add]
    have hp : Real.exp (314159265358979323847 / 25600000000000000000000 : ℝ) * Real.exp (314159265358979323847 / 25600000000000000000000 : ℝ) ≤ (101234745437592962844181085911337 / 100000000000000000000000000000000 : ℝ) * (101234745437592962844181085911337 / 100000000000000000000000000000000 : ℝ) :=
      mul_le_mul he2 he2 (Real.exp_pos _).le (le_trans (Real.exp_pos _).le he2)
    have hq : (101234745437592962844181085911337 / 100000000000000000000000000000000 : ℝ) * (101234745437592962844181085911337 / 100000000000000000000000000000000 : ℝ) ≤ (20496947367628498412275790125727 / 20000000000000000000000000000000 : ℝ) := by norm_num
    linarith
  have hx4 : (314159265358979323847 / 6400000000000000000000 : ℝ) = (314159265358979323847 / 12800000000000000000000 : ℝ) + (314159265358979323847 / 12800000000000000000000 : ℝ) := by norm_num
  have he4 : Real.exp (314159265358979323847 / 6400000000000000000000 : ℝ) ≤ (105031212847833207610678721011241 / 100000000000000000000000000000000 : ℝ) := by
    rw [hx4, Real.exp_add]
    have hp : Real.exp (314159265358979323847 / 12800000000000000000000 : ℝ) * Real.exp (314159265358979323847 / 12800000000000000000000 : ℝ) ≤ (20496947367628498412275790125727 / 20000000000000000000000000000000 : ℝ) * (20496947367628498412275790125727 / 20000000000000000000000000000000 : ℝ) :=
      mul_le_mul he3 he3 (Real.exp_pos _).le (le_trans (Real.exp_pos _).le he3)
    have hq : (20496947367628498412275790125727 / 20000000000000000000000000000000 : ℝ) * (20496947367628498412275790125727 / 20000000000000000000000000000000 : ℝ) ≤ (105031212847833207610678721011241 / 100000000000000000000000000000000 : ℝ) := by norm_num
    linarith
  have hx5 : (314159265358979323847 / 3200000000000000000000 : ℝ) = (314159265358979323847 / 6400000000000000000000 : ℝ) + (314159265358979323847 / 6400000000000000000000 : ℝ) := by norm_num
  have he5 : Real.exp (314159265358979323847 / 3200000000000000000000 : ℝ) ≤ (110315556722868434572155683482533 / 100000000000000000000000000000000 : ℝ) := by
    rw [hx5, Real.exp_add]
    have hp : Real.exp (314159265358979323847 / 6400000000000000000000 : ℝ) * Real.exp (314159265358979323847 / 6400000000000000000000 : ℝ) ≤ (105031212847833207610678721011241 / 100000000000000000000000000000000 : ℝ) * (105031212847833207610678721011241 / 100000000000000000000000000000000 : ℝ) :=
      mul_le_mul he4 he4 (Real.exp_pos _).le (le_trans (Real.exp_pos _).le he4)
    have hq : (105031212847833207610678721011241 / 100000000000000000000000000000000 : ℝ) * (105031212847833207610678721011241 / 100000000000000000000000000000000 : ℝ) ≤ (110315556722868434572155683482533 / 100000000000000000000000000000000 : ℝ) := by norm_num
    linarith
  have hx6 : (314159265358979323847 / 1600000000000000000000 : ℝ) = (314159265358979323847 / 3200000000000000000000 : ℝ) + (314159265358979323847 / 3200000000000000000000 : ℝ) := by norm_num
  have he6 : Real.exp (314159265358979323847 / 1600000000000000000000 : ℝ) ≤ (121695220550764030718927263846703 / 100000000000000000000000000000000 : ℝ) := by
    rw [hx6, Real.exp_add]
    have hp : Real.exp (314159265358979323847 / 3200000000000000000000 : ℝ) * Real.exp (314159265358979323847 / 3200000000000000000000 : ℝ) ≤ (110315556722868434572155683482533 / 100000000000000000000000000000000 : ℝ) * (110315556722868434572155683482533 / 100000000000000000000000000000000 : ℝ) :=
      mul_le_mul he5 he5 (Real.exp_pos _).le (le_trans (Real.exp_pos _).le he5)
    have hq : (110315556722868434572155683482533 / 100000000000000000000000000000000 : ℝ) * (110315556722868434572155683482533 / 100000000000000000000000000000000 : ℝ) ≤ (121695220550764030718927263846703 / 100000000000000000000000000000000 : ℝ) := by norm_num
    linarith
  have hx7 : (314159265358979323847 / 800000000000000000000 : ℝ) = (314159265358979323847 / 1600000000000000000000 : ℝ) + (314159265358979323847 / 1600000000000000000000 : ℝ) := by norm_num
  have he7 : Real.exp (314159265358979323847 / 800000000000000000000 : ℝ) ≤ (74048633524495500380971203047023 / 50000000000000000000000000000000 : ℝ) := by
    rw [hx7, Real.exp_add]
    have hp : Real.exp (314159265358979323847 / 1600000000000000000000 : ℝ) * Real.exp (314159265358979323847 / 1600000000000000000000 : ℝ) ≤ (121695220550764030718927263846703 / 100000000000000000000000000000000 : ℝ) * (121695220550764030718927263846703 / 100000000000000000000000000000000 : ℝ) :=
      mul_le_mul he6 he6 (Real.exp_pos _).le (le_trans (Real.exp_pos _).le he6)
    have hq : (121695220550764030718927263846703 / 100000000000000000000000000000000 : ℝ) * (121695220550764030718927263846703 / 100000000000000000000000000000000 : ℝ) ≤ (74048633524495500380971203047023 / 50000000000000000000000000000000 : ℝ) := by norm_num
    linarith
  have hx8 : (314159265358979323847 / 400000000000000000000 : ℝ) = (314159265358979323847 / 800000000000000000000 : ℝ) + (314159265358979323847 / 800000000000000000000 : ℝ) := by norm_num
  have he8 : Real.exp (314159265358979323847 / 400000000000000000000 : ℝ) ≤ (109664002536900778216386470317607 / 50000000000000000000000000000000 : ℝ) := by
    rw [hx8, Real.exp_add]
    have hp : Real.exp (314159265358979323847 / 800000000000000000000 : ℝ) * Real.exp (314159265358979323847 / 800000000000000000000 : ℝ) ≤ (74048633524495500380971203047023 / 50000000000000000000000000000000 : ℝ) * (74048633524495500380971203047023 / 50000000000000000000000000000000 : ℝ) :=
      mul_le_mul he7 he7 (Real.exp_pos _).le (le_trans (Real.exp_pos _).le he7)
    have hq : (74048633524495500380971203047023 / 50000000000000000000000000000000 : ℝ) * (74048633524495500380971203047023 / 50000000000000000000000000000000 : ℝ) ≤ (109664002536900778216386470317607 / 50000000000000000000000000000000 : ℝ) := by norm_num
    linarith
  have hx9 : (314159265358979323847 / 200000000000000000000 : ℝ) = (314159265358979323847 / 400000000000000000000 : ℝ) + (314159265358979323847 / 400000000000000000000 : ℝ) := by norm_num
  have he9 : Real.exp (314159265358979323847 / 200000000000000000000 : ℝ) ≤ (481047738096535212820366811069097 / 100000000000000000000000000000000 : ℝ) := by
    rw [hx9, Real.exp_add]
    have hp : Real.exp (314159265358979323847 / 400000000000000000000 : ℝ) * Real.exp (314159265358979323847 / 400000000000000000000 : ℝ) ≤ (109664002536900778216386470317607 / 50000000000000000000000000000000 : ℝ) * (109664002536900778216386470317607 / 50000000000000000000000000000000 : ℝ) :=
      mul_le_mul he8 he8 (Real.exp_pos _).le (le_trans (Real.exp_pos _).le he8)
    have hq : (109664002536900778216386470317607 / 50000000000000000000000000000000 : ℝ) * (109664002536900778216386470317607 / 50000000000000000000000000000000 : ℝ) ≤ (481047738096535212820366811069097 / 100000000000000000000000000000000 : ℝ) := by norm_num
    linarith
  have hx10 : (3.14159265358979323847 : ℝ) = (314159265358979323847 / 200000000000000000000 : ℝ) + (314159265358979323847 / 200000000000000000000 : ℝ) := by norm_num
  have he10 : Real.exp (3.14159265358979323847 : ℝ) ≤ (462813852655585471076982313808797 / 20000000000000000000000000000000 : ℝ) := by
    rw [hx10, Real.exp_add]
    have hp : Real.exp (314159265358979323847 / 200000000000000000000 : ℝ) * Real.exp (314159265358979323847 / 200000000000000000000 : ℝ) ≤ (481047738096535212820366811069097 / 100000000000000000000000000000000 : ℝ) * (481047738096535212820366811069097 / 100000000000000000000000000000000 : ℝ) :=
      mul_le_mul he9 he9 (Real.exp_pos _).le (le_trans (Real.exp_pos _).le he9)
    have hq : (481047738096535212820366811069097 / 100000000000000000000000000000000 : ℝ) * (481047738096535212820366811069097 / 100000000000000000000000000000000 : ℝ) ≤ (462813852655585471076982313808797 / 20000000000000000000000000000000 : ℝ) := by norm_num
    linarith
  exact he10

theorem sinh_pi_upper :
    Real.sinh Real.pi < (11548739357257751 / 1000000000000000 : ℝ) := by
  have h1 : Real.sinh Real.pi < Real.sinh (3.14159265358979323847 : ℝ) :=
    Real.sinh_lt_sinh.mpr Real.pi_lt_d20
  have h2 := exp_piu_upper
  have hpos := Real.exp_pos (3.14159265358979323847 : ℝ)
  have h3 : (462813852655585471076982313808797 / 20000000000000000000000000000000 : ℝ)⁻¹ ≤ Real.exp (-(3.14159265358979323847 : ℝ)) := by
    rw [Real.exp_neg]
    exact inv_anti₀ hpos h2
  have h4 : Real.sinh (3.14159265358979323847 : ℝ) ≤ ((462813852655585471076982313808797 / 20000000000000000000000000000000 : ℝ) - (462813852655585471076982313808797 / 20000000000000000000000000000000 : ℝ)⁻¹) / 2 := by
    rw [Real.sinh_eq]
    linarith
  have h5 : ((462813852655585471076982313808797 / 20000000000000000000000000000000 : ℝ) - (462813852655585471076982313808797 / 20000000000000000000000000000000 : ℝ)⁻¹) / 2 ≤ (11548739357257751 / 1000000000000000 : ℝ) := by norm_num
  linarith

set_option maxHeartbeats 1000000 in
theorem key_ineq :
    Real.sinh Real.pi < Real.tan (85.05112878 * Real.pi / 180) := by
  have hpi := Real.pi_pos
  have hpiu := Real.pi_lt_d20
  have hpil := Real.pi_gt_d20
  have hd : (0 : ℝ) < (27493729 / 1000000000 : ℝ) := by norm_num
  have hdelta_pos : 0 < (27493729 / 1000000000 : ℝ) * Real.pi := by positivity
  have hprod : (27493729 / 1000000000 : ℝ) * (3.14159265358979323847 : ℝ) = (8637409704618865246452655463 / 100000000000000000000000000000 : ℝ) := by norm_num
  have hdelta_le : (27493729 / 1000000000 : ℝ) * Real.pi ≤ (8637409704618865246452655463 / 100000000000000000000000000000 : ℝ) := by
    rw [← hprod]
    exact mul_le_mul_of_nonneg_left hpiu.le hd.le
  have hdu_lt : (8637409704618865246452655463 / 100000000000000000000000000000 : ℝ) < Real.pi / 2 := by
    have hq : 2 * (8637409704618865246452655463 / 100000000000000000000000000000 : ℝ) < (3.14159265358979323846 : ℝ) := by norm_num
    linarith
  have hmem1 : (27493729 / 1000000000 : ℝ) * Real.pi ∈ Set.Icc (-(Real.pi / 2)) (Real.pi / 2) :=
    ⟨by linarith, by linarith⟩
  have hmem2 : (8637409704618865246452655463 / 100000000000000000000000000000 : ℝ) ∈ Set.Icc (-(Real.pi / 2)) (Real.pi / 2) :=
    ⟨by linarith, hdu_lt.le⟩
  have hsin_mono : Real.sin ((27493729 / 1000000000 : ℝ) * Real.pi) ≤ Real.sin (8637409704618865246452655463 / 100000000000000000000000000000 : ℝ) :=
    Real.strictMonoOn_sin.monotoneOn hmem1 hmem2 hdelta_le
  have hmem3 : (27493729 / 1000000000 : ℝ) * Real.pi ∈ Set.Icc (0 : ℝ) Real.pi :=
    ⟨hdelta_pos.le, by linarith⟩
  have hmem4 : (8637409704618865246452655463 / 100000000000000000000000000000 : ℝ) ∈ Set.Icc (0 : ℝ) Real.pi :=
    ⟨by norm_num, by linarith⟩
  have hcos_mono : Real.cos (8637409704618865246452655463 / 100000000000000000000000000000 : ℝ) ≤ Real.cos ((27493729 / 1000000000 : ℝ) * Real.pi) :=
    Real.strictAntiOn_cos.antitoneOn hmem3 hmem4 hdelta_le
  have hsinpos : 0 < Real.sin ((27493729 / 1000000000 : ℝ) * Real.pi) :=
    Real.sin_pos_of_pos_of_lt_pi hdelta_pos (by linarith)
  have hS := sinh_pi_upper
  have hb := sin_cos_deltau_bounds
  have hsinh_pos : 0 < Real.sinh Real.pi := by
    rw [← Real.sinh_zero]
    exact Real.sinh_lt_sinh.mpr hpi
  have hmain : Real.sinh Real.pi * Real.sin ((27493729 / 1000000000 : ℝ) * Real.pi) <
      Real.cos ((27493729 / 1000000000 : ℝ) * Real.pi) := by
    have h1 : Real.sinh Real.pi * Real.sin ((27493729 / 1000000000 : ℝ) * Real.pi) ≤
        (11548739357257751 / 1000000000000000 : ℝ) * Real.sin (8637409704618865246452655463 / 100000000000000000000000000000 : ℝ) :=
      mul_le_mul hS.le hsin_mono hsinpos.le (le_trans hsinh_pos.le hS.le)
    have h2 : (11548739357257751 / 1000000000000000 : ℝ) * Real.sin (8637409704618865246452655463 / 100000000000000000000000000000 : ℝ) ≤ (11548739357257751 / 1000000000000000 : ℝ) * (43133369165347051021678199254438845110887503 / 500000000000000000000000000000000000000000000 : ℝ) :=
      mul_le_mul_of_nonneg_left hb.2.1 (by norm_num)
    have h3 : (11548739357257751 / 1000000000000000 : ℝ) * (43133369165347051021678199254438845110887503 / 500000000000000000000000000000000000000000000 : ℝ) < (498136038110520456527764477327320923398219771 / 500000000000000000000000000000000000000000000 : ℝ) := by norm_num
    have h4 := hb.2.2.1
    linarith
  have htheta : (85.05112878 : ℝ) * Real.pi / 180 = Real.pi / 2 - (27493729 / 1000000000 : ℝ) * Real.pi := by
    have hc : (85.05112878 : ℝ) / 180 - 1 / 2 + (27493729 / 1000000000 : ℝ) = 0 := by norm_num
    linear_combination Real.pi * hc
  rw [htheta, Real.tan_eq_sin_div_cos, Real.sin_pi_div_two_sub, Real.cos_pi_div_two_sub]
  rw [lt_div_iff₀ hsinpos]
  exact hmain

/-- C6 counterexample: at the boundary latitude 85.05112878 itself (with
longitude 0 and zoom 1), the roundtrip containment fails: the north edge
of the returned tile bounds is `degrees (arctan (sinh π))` ≈
85.05112877980659°, which is strictly below the requested latitude —
the constant 85.05112878 used by the code exceeds the exact Web Mercator
latitude limit by about 1.9e-10 degrees. -/
theorem tile_roundtrip_boundary_counterexample :
    (tile_to_latlng (latlng_to_tile 85.05112878 0 1).1
        (latlng_to_tile 85.05112878 0 1).2 1).north < 85.05112878 := by
  have hpi := Real.pi_pos
  have hkey := key_ineq
  have hcl : latClamp 85.05112878 = 85.05112878 :=
    latClamp_eq_self (by norm_num) le_rfl
  have hrad : radians (85.05112878 : ℝ) = 85.05112878 * Real.pi / 180 := rfl
  have hA : Real.pi ≤ Real.arsinh (Real.tan (radians (latClamp 85.05112878))) := by
    rw [hcl, hrad]
    have h := Real.arsinh_le_arsinh.mpr hkey.le
    rwa [Real.arsinh_sinh] at h
  have hfy : (latlng_to_tile_float 85.05112878 0 1).2 ≤ 0 := by
    rw [latlng_to_tile_float_snd]
    have h1 : 1 ≤ Real.arsinh (Real.tan (radians (latClamp 85.05112878))) / Real.pi := by
      rw [le_div_iff₀ hpi]
      linarith
    have h2 : ((2 : ℝ) ^ (1 : ℕ)) = 2 := by norm_num
    nlinarith
  have hY : (latlng_to_tile 85.05112878 0 1).2 = 0 := by
    rw [latlng_to_tile_snd]
    have h1 : pyInt ((latlng_to_tile_float 85.05112878 0 1).2) ≤ 0 := pyInt_nonpos hfy
    have h2 : ((2 : ℤ) ^ (1 : ℕ) - 1) = 1 := by norm_num
    rw [h2, min_eq_right (le_trans h1 (by norm_num)), max_eq_left h1]
  have hnorth : (tile_to_latlng (latlng_to_tile 85.05112878 0 1).1
      (latlng_to_tile 85.05112878 0 1).2 1).north =
      degrees (Real.arctan (Real.sinh Real.pi)) := by
    rw [tile_to_latlng_north, hY]
    norm_num
  rw [hnorth]
  have hth_pos : 0 < (85.05112878 : ℝ) * Real.pi / 180 := by positivity
  have hth_lt : (85.05112878 : ℝ) * Real.pi / 180 < Real.pi / 2 := by nlinarith
  have h1 : Real.arctan (Real.sinh Real.pi) <
      Real.arctan (Real.tan (85.05112878 * Real.pi / 180)) :=
    Real.arctan_strictMono hkey
  rw [Real.arctan_tan (by linarith) hth_lt] at h1
  have h2 := degrees_strictMono h1
  have h3 : degrees ((85.05112878 : ℝ) * Real.pi / 180) = 85.05112878 := by
    unfold degrees
    field_simp
  rw [h3] at h2
  exact h2

end TifDownloader
